import Mathlib

/-!
Verification of the tamago uSDHC SD/eMMC card-initialization protocol engine
(`src/imx6/usdhc/sd.go`) against its natural-language specification.

The Go source is shallowly embedded: the pure capacity-decoding arithmetic
becomes Lean functions on `Nat`/`Int` (with explicit 32-bit wraparound where
the Go `uint32`/`int` types can overflow: the target is GOARCH=arm, where
`int` is 32 bits), and the command/response-driven control flow becomes
functions over an explicit environment recording the outcome of each hardware
primitive call, threading the mutable `card` descriptor state and emitting a
trace of issued commands, clock reprogrammings and waits.

The host-controller primitives (`hw.cmd`, `hw.rspVal`, `hw.waitState`,
`hw.setClock`, `hw.transfer`) and the `bits` codec live outside `src/` and are
modelled from the specification's interface contracts (spec sections 4.1 and 6).
-/

/-! ## Go machine integers (GOARCH=arm: `int` is 32-bit, two's complement) -/

/-- 2^32, the modulus of Go `uint32` arithmetic. -/
def U32MOD : Nat := 4294967296

/-- Reduce a natural number to its Go `uint32` value. -/
def u32 (n : Nat) : Nat := n % U32MOD

/-- Go `uint32` addition. -/
def u32add (a b : Nat) : Nat := (a + b) % U32MOD

/-- Go `uint32` subtraction (wraps around). -/
def u32sub (a b : Nat) : Nat := (a % U32MOD + (U32MOD - b % U32MOD)) % U32MOD

/-- Go `uint32` multiplication. -/
def u32mul (a b : Nat) : Nat := (a * b) % U32MOD

/-- Go `uint32` left shift: a shift count of 32 or more yields 0.
The guard is the evaluable form of the mod-2^32 wraparound. -/
def u32shl (x s : Nat) : Nat := if 32 ≤ s then 0 else (x <<< s) % U32MOD

/-- Reduce an integer to the 32-bit two's-complement value of the Go `int`
type on a 32-bit target (GOARCH=arm). -/
def int32wrap (x : Int) : Int :=
  let r := x % (4294967296 : Int)
  if r < 2147483648 then r else r - 4294967296

/-- Go conversion of a `uint32` value to `int` (32-bit, two's complement). -/
def goIntOfU32 (n : Nat) : Int := int32wrap (n : Int)

/-- Go `int` multiplication on a 32-bit target (signed overflow wraps). -/
def goIntMul (a b : Int) : Int := int32wrap (a * b)

/-- Go `int` left shift of a (small, constant) left operand by a `uint32`
count on a 32-bit target: a count of 32 or more yields 0. -/
def goShlInt (x : Int) (s : Nat) : Int := if 32 ≤ s then 0 else int32wrap (x * 2 ^ s)

/-! ## Bit-field codec

Modelled from the spec (section 4.1): the `bits` package used by the driver is
not under `src/`; its contract is `set_field` writes `value & mask` shifted by
`bit_offset` into the word after clearing the mask window, `get_field` reads
and right-shifts, with truncate-not-reject semantics on `uint32` words. -/

/-- Modelled from the spec: `bits.SetN(&word, off, mask, val)` clears the bits
under `mask << off` and ors in `(val & mask) << off` (a `uint32` word). -/
def bitsSetN (w off mask val : Nat) : Nat :=
  (w &&& (4294967295 ^^^ ((mask <<< off) &&& 4294967295))) |||
    (((val &&& mask) <<< off) &&& 4294967295)

/-- Modelled from the spec: `bits.Set(&word, pos)` sets a single bit. -/
def bitsSet (w pos : Nat) : Nat := (w ||| (1 <<< pos)) &&& 4294967295

/-- Modelled from the spec: `bits.Get(&word, off, mask)` reads and
right-shifts the bits under the mask window. -/
def bitsGet (w off mask : Nat) : Nat := (w >>> off) &&& mask

/-! ## Response accessor

Modelled from the spec (section 6): `response_field(bit_offset, mask)` returns
an arbitrary bit-field of the latched response; for 136-bit responses the
offsets carry a fixed bias because the hardware strips the leading 8-bit
command-echo prefix. The latched response is modelled as a `Nat` holding the
response bits. -/

/-- Modelled from the spec: the long-response bit-offset bias for the stripped
8-bit command-echo prefix (`CSD_RSP_OFF` in the missing `usdhc.go`). -/
def CSD_RSP_OFF : Int := -8

/-- Modelled from the spec: `hw.rspVal(pos, mask)` extracts the bit-field at
`pos` (already biased by `CSD_RSP_OFF`) under `mask` from the latched
response `r`. -/
def rspVal (r : Nat) (pos : Int) (mask : Nat) : Nat := (r >>> pos.toNat) &&& mask

/-! ## Constants from `src/imx6/usdhc/sd.go` -/

def CMD8_ARG_VHS : Nat := 8
def CMD8_ARG_CHECK_PATTERN : Nat := 0
def VHS_HIGH : Nat := 0b0001
def VHS_LOW : Nat := 0b0010
def CHECK_PATTERN : Nat := 0b10101010

def SD_OCR_BUSY : Nat := 31
def SD_OCR_HCS : Nat := 30
def SD_OCR_XPC : Nat := 28
def SD_OCR_VDD_HV_MIN : Nat := 15
def SD_OCR_VDD_LV : Nat := 7

def SD_SWITCH_MODE : Nat := 0
def SD_SWITCH_ACCESS_MODE : Nat := 0
def MODE_SWITCH : Nat := 1
def ACCESS_MODE_HS : Nat := 0x1

def SD_CSD_STRUCTURE : Int := 126 + CSD_RSP_OFF
def SD_CSD_C_SIZE_MULT_1 : Int := 47 + CSD_RSP_OFF
def SD_CSD_C_SIZE_1 : Int := 62 + CSD_RSP_OFF
def SD_CSD_READ_BL_LEN_1 : Int := 80 + CSD_RSP_OFF
def SD_CSD_C_SIZE_2 : Int := 48 + CSD_RSP_OFF
def SD_CSD_READ_BL_LEN_2 : Int := 80 + CSD_RSP_OFF

/-- `SD_DETECT_TIMEOUT = 1 * time.Second`, in nanoseconds. -/
def SD_DETECT_TIMEOUT : Nat := 1000000000

def SD_DEFAULT_BLOCK_SIZE : Nat := 512

/-- Constants from the eMMC half of the driver. -/
def MMC_OCR_BUSY : Nat := 31
def MMC_OCR_ACCESS_MODE : Nat := 29
def MMC_OCR_VDD_HV_MIN : Nat := 15
def ACCESS_MODE_SECTOR : Nat := 0b10

def MMC_SWITCH_ACCESS : Nat := 24
def MMC_SWITCH_INDEX : Nat := 16
def MMC_SWITCH_VALUE : Nat := 8
def ACCESS_WRITE_BYTE : Nat := 0b11

def MMC_CSD_C_SIZE_MULT : Int := 47 + CSD_RSP_OFF
def MMC_CSD_C_SIZE : Int := 62 + CSD_RSP_OFF
def MMC_CSD_READ_BL_LEN : Int := 80 + CSD_RSP_OFF
def MMC_CSD_TRAN_SPEED : Int := 96 + CSD_RSP_OFF
def MMC_CSD_SPEC_VERS : Int := 122 + CSD_RSP_OFF

def TRAN_SPEED_26MHZ : Nat := 0x32
def EXT_CSD_BUS_WIDTH : Nat := 183
def EXT_CSD_HS_TIMING : Nat := 185
def EXT_CSD_SEC_COUNT : Nat := 212
def HS_TIMING_HS : Nat := 0x1

/-- `MMC_DETECT_TIMEOUT = 1 * time.Second`, in nanoseconds. -/
def MMC_DETECT_TIMEOUT : Nat := 1000000000

def MMC_DEFAULT_BLOCK_SIZE : Nat := 512

/-! Constants from the missing `usdhc.go`, modelled from the spec: the card
status current-state field (4 bits, states enumerated Idle..Disabled, of which
Identification = 2 and Transfer = 4 are used), the app-command status bit, and
the RCA position in command arguments (high 16 bits). -/

/-- Modelled from the spec: bit offset of the 4-bit current-state field in a
48-bit response (`STATUS_CURRENT_STATE` in the missing `usdhc.go`). -/
def STATUS_CURRENT_STATE : Nat := 9

/-- Modelled from the spec: the Identification state code. -/
def CURRENT_STATE_IDENT : Nat := 2

/-- Modelled from the spec: the Transfer state code. -/
def CURRENT_STATE_TRAN : Nat := 4

/-- Modelled from the spec: bit offset of the app-command-expected status bit. -/
def STATUS_APP_CMD : Nat := 5

/-- Modelled from the spec: the RCA occupies the high 16 bits of addressed
command arguments. -/
def RCA_ADDR : Nat := 16

/-- Modelled from the spec: opaque clock divisor/prescaler parameters for the
operating, SDR high-speed and DDR high-speed modes (values are placeholder
tokens, distinct per mode; the real register values live in the missing
`usdhc.go`). -/
def DVS_OP : Nat := 1
def SDCLKFS_OP : Nat := 1
def DVS_HS : Nat := 2
def SDCLKFS_HS_SDR : Nat := 2
def SDCLKFS_HS_DDR : Nat := 3

/-! ## Data model -/

/-- The card descriptor (`hw.card`): block geometry and speed-mode flags.
`BlockSize` and `Blocks` are Go `int` fields (32-bit on this target). -/
structure Card where
  BlockSize : Int
  Blocks : Int
  HS : Bool
  DDR : Bool
deriving DecidableEq, Repr

/-- The Go zero value of the card descriptor. -/
def Card.zero : Card := ⟨0, 0, false, false⟩

/-- The driver-visible mutable controller state: card descriptor and RCA. -/
structure HwState where
  card : Card
  rca : Nat
deriving DecidableEq, Repr

/-- Errors returned by the driver, following the spec's taxonomy (section 7):
hardware command failures (opaque tokens supplied by the environment),
wait-for-state timeouts, and protocol errors (`fmt.Errorf`/`errors.New`
messages). -/
inductive GoErr where
  | hw (e : Nat)
  | stateTimeout
  | protocol (msg : String)
deriving DecidableEq, Repr

/-- Trace of externally visible effects: commands issued (index and argument),
clock reprogrammings, bounded state waits (timeout in nanoseconds), data
transfers, and sleeps (milliseconds). -/
inductive Ev where
  | cmd (idx arg : Nat)
  | clock (dvs sdclkfs : Nat)
  | wait (state ns : Nat)
  | xfer (idx blocks blockSize : Nat)
  | sleep (ms : Nat)
deriving DecidableEq, Repr

/-- Result of a driver call: the Go error value, the final controller state,
and the effect trace. -/
structure GoOut where
  err : Option GoErr
  st : HwState
  trace : List Ev
deriving DecidableEq, Repr

/-! ## `detectCapacitySD` -/

/-- `detectCapacitySD(blockSize)`: issues CMD9 (SEND_CSD) and decodes block
size and block count from the latched CSD response per structure version.
`cmd9` is the environment-supplied outcome of the CMD9 issue and `csd` the
latched 136-bit response; `rca`/`card` are the relevant parts of `hw`.
The Go parameter `blockSize` is unused, as in the source. -/
def detectCapacitySD (blockSize : Nat) (cmd9 : Option Nat) (csd : Nat) (rca : Nat)
    (card : Card) : Option GoErr × Card × List Ev :=
  let tr : List Ev := [Ev.cmd 9 rca]
  match cmd9 with
  | some e => (some (GoErr.hw e), card, tr)
  | none =>
    let ver := rspVal csd SD_CSD_STRUCTURE 0b11
    if ver = 0 then
      let c_size_mult := rspVal csd SD_CSD_C_SIZE_MULT_1 0b111
      let c_size := rspVal csd SD_CSD_C_SIZE_1 0xfff
      let read_bl_len := rspVal csd SD_CSD_READ_BL_LEN_1 0xf
      let card := { card with
        BlockSize := goShlInt 2 (u32sub read_bl_len 1)
        Blocks := goIntOfU32 (u32mul (u32add c_size 1) (u32shl 2 (u32add c_size_mult 2))) }
      (none, card, tr)
    else if ver = 1 then
      let c_size := rspVal csd SD_CSD_C_SIZE_2 0x3fffff
      let read_bl_len := rspVal csd SD_CSD_READ_BL_LEN_2 0xf
      let card := { card with
        BlockSize := goShlInt 2 (u32sub read_bl_len 1)
        Blocks := goIntMul (goIntOfU32 (u32add c_size 1)) 1024 }
      (none, card, tr)
    else if ver = 2 then
      let c_size := rspVal csd SD_CSD_C_SIZE_2 0xfffffff
      let read_bl_len := rspVal csd SD_CSD_READ_BL_LEN_2 0xf
      let card := { card with
        BlockSize := goShlInt 2 (u32sub read_bl_len 1)
        Blocks := goIntMul (goIntOfU32 (u32add c_size 1)) 1024 }
      (none, card, tr)
    else (some (GoErr.protocol ("unsupported CSD version " ++ toString ver)), card, tr)

/-! ## Operating-condition negotiation (`voltageValidationSD`, `voltageValidationMMC`)

The busy-polling loops run against a wall-clock deadline
(`for time.Since(start) <= TIMEOUT`). Time is modelled by an environment
clock `t : Nat → Nat` giving `time.Since(start)` in nanoseconds at the k-th
evaluation of the loop condition, and the per-iteration command outcomes by
an environment function on the iteration index. The Go loop terminates
because real time advances; the embedding makes that explicit with a fuel
argument (`none` = fuel exhausted, never reached under the theorems'
fuel hypotheses). -/

/-- Outcome of one SD polling iteration: CMD55 failed (hardware error token),
ACMD41 failed, or ACMD41 succeeded with latched response word `r`. -/
inductive SDIter where
  | fail55 (e : Nat)
  | fail41 (e : Nat)
  | rsp (r : Nat)

/-- The CMD55+ACMD41 polling loop of `voltageValidationSD`: `it k` is the
k-th iteration's outcome, `t k` the elapsed time at the k-th loop-condition
check, `arg` the ACMD41 argument, `hc` the high-capacity flag carried in from
the CMD8 probe. Returns the `(sd, hc)` result and the trace of commands
issued by the loop. -/
def sdOpCondLoop (it : Nat → SDIter) (t : Nat → Nat) (arg : Nat) :
    Nat → Nat → Bool → Option ((Bool × Bool) × List Ev)
  | 0, _, _ => none
  | fuel + 1, k, hc =>
    if t k ≤ SD_DETECT_TIMEOUT then
      match it k with
      | SDIter.fail55 _ => some ((false, false), [Ev.cmd 55 0])
      | SDIter.fail41 _ => some ((false, false), [Ev.cmd 55 0, Ev.cmd 41 arg])
      | SDIter.rsp r =>
        if bitsGet r SD_OCR_BUSY 1 == 0 then
          match sdOpCondLoop it t arg fuel (k + 1) hc with
          | none => none
          | some (res, tr) => some (res, Ev.cmd 55 0 :: Ev.cmd 41 arg :: tr)
        else
          some ((true, if bitsGet r SD_OCR_HCS 1 == 1 then true else hc),
            [Ev.cmd 55 0, Ev.cmd 41 arg])
    else
      some ((false, false), [])

/-- Environment for `voltageValidationSD`: outcomes of the two optional CMD8
probes (hardware error token or latched `rsp(0)`), per-iteration loop
outcomes, and the clock. -/
structure SDVVEnv where
  cmd8a : Option Nat
  rsp8a : Nat
  cmd8b : Option Nat
  rsp8b : Nat
  iter : Nat → SDIter
  t : Nat → Nat

/-- The CMD8 interface-condition probe of `voltageValidationSD`: returns
`(hc, hv, trace)` per the three-way branch of the source. -/
def sdProbe (env : SDVVEnv) : Bool × Bool × List Ev :=
  let argA := bitsSetN (bitsSetN 0 CMD8_ARG_VHS 0b1111 VHS_HIGH)
    CMD8_ARG_CHECK_PATTERN 0xff CHECK_PATTERN
  if env.cmd8a = none ∧ env.rsp8a = argA then
    (true, true, [Ev.cmd 8 argA])
  else
    let argB := (VHS_LOW <<< CMD8_ARG_VHS) ||| CHECK_PATTERN
    if env.cmd8b = none ∧ env.rsp8b = argB then
      (true, false, [Ev.cmd 8 argA, Ev.cmd 8 argB])
    else
      (false, true, [Ev.cmd 8 argA, Ev.cmd 8 argB])

/-- The ACMD41 argument built by `voltageValidationSD` from the probe's
`(hc, hv)` conclusion. -/
def sdAcmd41Arg (hc hv : Bool) : Nat :=
  let arg := 0
  let arg := if hc then bitsSet (bitsSet arg SD_OCR_HCS) SD_OCR_XPC else arg
  if hv then bitsSetN arg SD_OCR_VDD_HV_MIN 0x1ff 0x1ff else bitsSet arg SD_OCR_VDD_LV

/-- `voltageValidationSD`: CMD8 probe, ACMD41 argument construction, then the
busy-polling loop. Returns the `(sd, hc)` result and the full command trace. -/
def voltageValidationSD (env : SDVVEnv) (fuel : Nat) :
    Option ((Bool × Bool) × List Ev) :=
  let p := sdProbe env
  let arg := sdAcmd41Arg p.1 p.2.1
  match sdOpCondLoop env.iter env.t arg fuel 0 p.1 with
  | none => none
  | some (res, tr) => some (res, p.2.2 ++ tr)

/-- Outcome of one MMC polling iteration: CMD1 failed (hardware error token)
or succeeded with latched response word `r`. -/
inductive MMCIter where
  | fail (e : Nat)
  | rsp (r : Nat)

/-- The CMD1 polling loop of `voltageValidationMMC`. -/
def mmcOpCondLoop (it : Nat → MMCIter) (t : Nat → Nat) (arg : Nat) :
    Nat → Nat → Bool → Option ((Bool × Bool) × List Ev)
  | 0, _, _ => none
  | fuel + 1, k, hc =>
    if t k ≤ MMC_DETECT_TIMEOUT then
      match it k with
      | MMCIter.fail _ => some ((false, false), [Ev.cmd 1 arg])
      | MMCIter.rsp r =>
        if bitsGet r MMC_OCR_BUSY 1 == 0 then
          match mmcOpCondLoop it t arg fuel (k + 1) hc with
          | none => none
          | some (res, tr) => some (res, Ev.cmd 1 arg :: tr)
        else
          some ((true,
            if bitsGet r MMC_OCR_ACCESS_MODE 0b11 == ACCESS_MODE_SECTOR then true else hc),
            [Ev.cmd 1 arg])
    else
      some ((false, false), [])

/-- Environment for `voltageValidationMMC`. -/
structure MMCVVEnv where
  iter : Nat → MMCIter
  t : Nat → Nat

/-- The CMD1 argument built by `voltageValidationMMC` (sector access mode and
high-voltage window). -/
def mmcCmd1Arg : Nat :=
  bitsSetN (bitsSetN 0 MMC_OCR_ACCESS_MODE 0b11 ACCESS_MODE_SECTOR)
    MMC_OCR_VDD_HV_MIN 0x1ff 0x1ff

/-- `voltageValidationMMC`: argument construction, 1 ms pre-idle settle sleep,
then the CMD1 busy-polling loop. -/
def voltageValidationMMC (env : MMCVVEnv) (fuel : Nat) :
    Option ((Bool × Bool) × List Ev) :=
  match mmcOpCondLoop env.iter env.t mmcCmd1Arg fuel 0 false with
  | none => none
  | some (res, tr) => some (res, Ev.sleep 1 :: tr)

/-- Number of commands with index `idx` in a trace. -/
def countCmd (idx : Nat) : List Ev → Nat
  | [] => 0
  | Ev.cmd i _ :: tr => (if i = idx then 1 else 0) + countCmd idx tr
  | _ :: tr => countCmd idx tr

/-! ## `initSD` -/

/-- Environment for `initSD`: one field per hardware-primitive call site, in
source order. `Option Nat` fields are hardware-command outcomes (`some e` =
failure with opaque error token `e`); `rsp3`/`rsp55` the latched `rsp(0)`
words after CMD3/CMD55; `csd` the latched 136-bit response after CMD9;
`wait1`/`wait500` the outcomes of the two `waitState` calls (`true` = state
reached before the timeout). -/
structure SDEnv where
  cmd2 : Option Nat
  cmd3 : Option Nat
  rsp3 : Nat
  cmd9 : Option Nat
  csd : Nat
  cmd7 : Option Nat
  wait1 : Bool
  cmd55 : Option Nat
  rsp55 : Nat
  acmd6 : Option Nat
  cmd6 : Option Nat
  wait500 : Bool

/-- `initSD`: CMD2, CMD3 (read RCA, check Identification state), clock to
operating frequency, capacity decode, CMD7 + wait for Transfer, CMD55 app-gate
check, ACMD6 bus width, CMD6 high-speed switch + wait for Transfer, clock to
high speed, `HS = true`. `width` is the configured bus width (`hw.width`). -/
def initSD (env : SDEnv) (width : Nat) (st : HwState) : GoOut :=
  let tr : List Ev := [Ev.cmd 2 0]
  match env.cmd2 with
  | some e => ⟨some (GoErr.hw e), st, tr⟩
  | none =>
  let tr := tr ++ [Ev.cmd 3 0]
  match env.cmd3 with
  | some e => ⟨some (GoErr.hw e), st, tr⟩
  | none =>
  let state := (env.rsp3 >>> STATUS_CURRENT_STATE) &&& 0b1111
  if state ≠ CURRENT_STATE_IDENT then
    ⟨some (GoErr.protocol ("card not in ident state (" ++ toString state ++ ")")), st, tr⟩
  else
  let tr := tr ++ [Ev.clock 0 0, Ev.clock DVS_OP SDCLKFS_OP]
  let st := { st with rca := env.rsp3 &&& (0xffff <<< RCA_ADDR) }
  match detectCapacitySD SD_DEFAULT_BLOCK_SIZE env.cmd9 env.csd st.rca st.card with
  | (some e, card', tr') => ⟨some e, { st with card := card' }, tr ++ tr'⟩
  | (none, card', tr') =>
  let st := { st with card := card' }
  let tr := tr ++ tr' ++ [Ev.cmd 7 st.rca]
  match env.cmd7 with
  | some e => ⟨some (GoErr.hw e), st, tr⟩
  | none =>
  let tr := tr ++ [Ev.wait CURRENT_STATE_TRAN 1000000]
  if ¬ env.wait1 then ⟨some GoErr.stateTimeout, st, tr⟩
  else
  let tr := tr ++ [Ev.cmd 55 st.rca]
  match env.cmd55 with
  | some e => ⟨some (GoErr.hw e), st, tr⟩
  | none =>
  if (env.rsp55 >>> STATUS_APP_CMD) &&& 1 ≠ 1 then
    ⟨some (GoErr.protocol "card not expecting application command"), st, tr⟩
  else
  if width = 1 ∨ width = 4 then
    let bus_width : Nat := if width = 1 then 0b00 else 0b10
    let tr := tr ++ [Ev.cmd 6 bus_width]
    match env.acmd6 with
    | some e => ⟨some (GoErr.hw e), st, tr⟩
    | none =>
    let arg := 0xffffffff
    let arg := bitsSetN arg SD_SWITCH_MODE 1 MODE_SWITCH
    let arg := bitsSetN arg SD_SWITCH_ACCESS_MODE 0b1111 ACCESS_MODE_HS
    let tr := tr ++ [Ev.cmd 6 arg]
    match env.cmd6 with
    | some e => ⟨some (GoErr.hw e), st, tr⟩
    | none =>
    let err : Option GoErr := if env.wait500 then none else some GoErr.stateTimeout
    let tr := tr ++ [Ev.wait CURRENT_STATE_TRAN 500000000,
      Ev.clock 0 0, Ev.clock DVS_HS SDCLKFS_HS_SDR]
    ⟨err, { st with card := { st.card with HS := true } }, tr⟩
  else
    ⟨some (GoErr.protocol "unsupported SD bus width"), st, tr⟩

/-! ## `writeCardRegisterMMC`, `detectCapacityMMC`, `initMMC` -/

/-- The CMD6 argument built by `writeCardRegisterMMC(reg, val)`: write-byte
access mode, target Extended-CSD register index, and value, each placed by
`bits.SetN`. -/
def mmcSwitchArg (reg val : Nat) : Nat :=
  let arg := bitsSetN 0 MMC_SWITCH_ACCESS 0b11 ACCESS_WRITE_BYTE
  let arg := bitsSetN arg MMC_SWITCH_INDEX 0xff reg
  bitsSetN arg MMC_SWITCH_VALUE 0xff val

/-- `writeCardRegisterMMC(reg, val)`: CMD6 byte-write of one Extended CSD
register followed by a bounded 500 ms wait for Transfer state. `cmdRes` and
`waitRes` are the environment-supplied outcomes of the two primitive calls. -/
def writeCardRegisterMMC (cmdRes : Option Nat) (waitRes : Bool) (reg val : Nat) :
    Option GoErr × List Ev :=
  let arg := mmcSwitchArg reg val
  match cmdRes with
  | some e => (some (GoErr.hw e), [Ev.cmd 6 arg])
  | none =>
    if waitRes then (none, [Ev.cmd 6 arg, Ev.wait CURRENT_STATE_TRAN 500000000])
    else (some GoErr.stateTimeout, [Ev.cmd 6 arg, Ev.wait CURRENT_STATE_TRAN 500000000])

/-- The little-endian 32-bit word at byte offset `off` of the Extended CSD
buffer (`binary.LittleEndian.Uint32(extCSD[off:])`); buffer bytes are the
environment function `buf` masked to byte range. -/
def le32 (buf : Nat → Nat) (off : Nat) : Nat :=
  (buf off &&& 0xff) + ((buf (off + 1) &&& 0xff) <<< 8) +
    ((buf (off + 2) &&& 0xff) <<< 16) + ((buf (off + 3) &&& 0xff) <<< 24)

/-- `detectCapacityMMC(blockSize, c_size_mult, c_size, read_bl_len)`: for
densities beyond the 8-bit legacy `c_size` range, read one block of Extended
CSD via a CMD8 data transfer and take the 32-bit sector count at offset
`EXT_CSD_SEC_COUNT`; otherwise decode from the legacy CSD fields. `xfer` is
the environment-supplied transfer outcome and `buf` the transferred bytes. -/
def detectCapacityMMC (blockSize : Nat) (c_size_mult c_size read_bl_len : Nat)
    (xfer : Option Nat) (buf : Nat → Nat) (card : Card) :
    Option GoErr × Card × List Ev :=
  if c_size > 0xff then
    let card := { card with BlockSize := (blockSize : Int) }
    let tr : List Ev := [Ev.xfer 8 1 (u32 blockSize)]
    match xfer with
    | some e => (some (GoErr.hw e), card, tr)
    | none =>
      (none, { card with Blocks := goIntOfU32 (u32 (le32 buf EXT_CSD_SEC_COUNT)) }, tr)
  else
    (none, { card with
      BlockSize := goShlInt 2 (u32sub read_bl_len 1)
      Blocks := goIntOfU32 (u32mul (u32add c_size 1) (u32shl 2 (u32add c_size_mult 2))) },
      [])

/-- Environment for `initMMC`: one field per hardware-primitive call site, in
source order. The three `writeCardRegisterMMC` calls (SDR bus width,
HS timing, DDR bus width) each get a command outcome and a wait outcome. -/
structure MMCEnv where
  cmd2 : Option Nat
  cmd3 : Option Nat
  rsp3 : Nat
  cmd9 : Option Nat
  csd : Nat
  cmd7 : Option Nat
  wait1 : Bool
  bw1cmd : Option Nat
  bw1wait : Bool
  xfer8 : Option Nat
  extCSD : Nat → Nat
  hsCmd : Option Nat
  hsWait : Bool
  bw2cmd : Option Nat
  bw2wait : Bool

/-- The high-speed/DDR upgrade stage of `initMMC` (source lines following the
`ver < 4` early return): HS-timing Extended-CSD write, second bus-width write
re-resolving the register code from the configured width with no default
branch (`bus_width` keeps its earlier value for any other width), DDR clock
reprogram, and the `DDR`/`HS` flags. -/
def initMMCddr (env : MMCEnv) (width bus_width : Nat) (st : HwState) : GoOut :=
  match writeCardRegisterMMC env.hsCmd env.hsWait EXT_CSD_HS_TIMING HS_TIMING_HS with
  | (some e, tr') => ⟨some e, st, tr'⟩
  | (none, tr') =>
    let bus_width := if width = 4 then 5 else if width = 8 then 6 else bus_width
    match writeCardRegisterMMC env.bw2cmd env.bw2wait EXT_CSD_BUS_WIDTH bus_width with
    | (some e, tr'') => ⟨some e, st, tr' ++ tr''⟩
    | (none, tr'') =>
      ⟨none, { st with card := { st.card with DDR := true, HS := true } },
        tr' ++ tr'' ++ [Ev.clock 0 0, Ev.clock DVS_HS SDCLKFS_HS_DDR]⟩

/-- `initMMC`: CMD2, host-assigned RCA pushed via CMD3 (check Identification
state), CMD9 CSD read and field extraction, TRAN_SPEED gate, clock to
operating frequency, CMD7 + wait for Transfer, SDR bus-width Extended-CSD
write, capacity decode, and — only for specification version 4 or above —
the `initMMCddr` upgrade stage. `n` is the controller slot index (`hw.n`),
`width` the configured bus width. -/
def initMMC (env : MMCEnv) (n : Nat) (width : Nat) (st : HwState) : GoOut :=
  let tr : List Ev := [Ev.cmd 2 0]
  match env.cmd2 with
  | some e => ⟨some (GoErr.hw e), st, tr⟩
  | none =>
  let st := { st with rca := u32 ((u32add n 1) <<< RCA_ADDR) }
  let tr := tr ++ [Ev.cmd 3 st.rca]
  match env.cmd3 with
  | some e => ⟨some (GoErr.hw e), st, tr⟩
  | none =>
  let state := (env.rsp3 >>> STATUS_CURRENT_STATE) &&& 0b1111
  if state ≠ CURRENT_STATE_IDENT then
    ⟨some (GoErr.protocol ("card not in ident state (" ++ toString state ++ ")")), st, tr⟩
  else
  let tr := tr ++ [Ev.cmd 9 st.rca]
  match env.cmd9 with
  | some e => ⟨some (GoErr.hw e), st, tr⟩
  | none =>
  let c_size_mult := rspVal env.csd MMC_CSD_C_SIZE_MULT 0b111
  let c_size := rspVal env.csd MMC_CSD_C_SIZE 0xfff
  let read_bl_len := rspVal env.csd MMC_CSD_READ_BL_LEN 0xf
  let mhz := rspVal env.csd MMC_CSD_TRAN_SPEED 0xff
  let ver := rspVal env.csd MMC_CSD_SPEC_VERS 0xf
  if mhz = TRAN_SPEED_26MHZ then
    let tr := tr ++ [Ev.clock 0 0, Ev.clock DVS_OP SDCLKFS_OP]
    let tr := tr ++ [Ev.cmd 7 st.rca]
    match env.cmd7 with
    | some e => ⟨some (GoErr.hw e), st, tr⟩
    | none =>
    let tr := tr ++ [Ev.wait CURRENT_STATE_TRAN 1000000]
    if ¬ env.wait1 then ⟨some GoErr.stateTimeout, st, tr⟩
    else
    if width = 4 ∨ width = 8 then
      let bus_width : Nat := if width = 4 then 1 else 2
      match writeCardRegisterMMC env.bw1cmd env.bw1wait EXT_CSD_BUS_WIDTH bus_width with
      | (some e, tr') => ⟨some e, st, tr ++ tr'⟩
      | (none, tr') =>
      let tr := tr ++ tr'
      match detectCapacityMMC MMC_DEFAULT_BLOCK_SIZE c_size_mult c_size read_bl_len
          env.xfer8 env.extCSD st.card with
      | (some e, card', tr') => ⟨some e, { st with card := card' }, tr ++ tr'⟩
      | (none, card', tr') =>
      let st := { st with card := card' }
      let tr := tr ++ tr'
      if ver < 4 then ⟨none, st, tr⟩
      else
        let out := initMMCddr env width bus_width st
        ⟨out.err, out.st, tr ++ out.trace⟩
    else
      ⟨some (GoErr.protocol "unsupported MMC bus width"), st, tr⟩
  else
    ⟨some (GoErr.protocol ("unexpected TRAN_SPEED " ++ toString mhz)), st, tr⟩

/-! ## Arithmetic helper lemmas -/

theorem rspVal_le (r : Nat) (p : Int) (m : Nat) : rspVal r p m ≤ m :=
  Nat.and_le_right

theorem u32add_eq (a b : Nat) (h : a + b < U32MOD) : u32add a b = a + b :=
  Nat.mod_eq_of_lt h

theorem u32mul_eq (a b : Nat) (h : a * b < U32MOD) : u32mul a b = a * b :=
  Nat.mod_eq_of_lt h

theorem u32shl_two (s : Nat) (h : s ≤ 30) : u32shl 2 s = 2 ^ (s + 1) := by
  unfold u32shl
  rw [if_neg (by omega), Nat.shiftLeft_eq]
  have h1 : 2 * 2 ^ s = 2 ^ (s + 1) := (pow_succ' 2 s).symm
  rw [h1]
  apply Nat.mod_eq_of_lt
  have h2 : 2 ^ (s + 1) ≤ 2 ^ 31 := Nat.pow_le_pow_right (by omega) (by omega)
  have h3 : (2 : Nat) ^ 31 < U32MOD := by norm_num [U32MOD]
  omega

theorem int32wrap_eq (x : Int) (h0 : 0 ≤ x) (h : x < 2147483648) : int32wrap x = x := by
  unfold int32wrap
  have hm : x % 4294967296 = x := Int.emod_eq_of_lt h0 (by omega)
  simp only [hm]
  rw [if_pos h]

theorem goIntOfU32_eq (n : Nat) (h : n < 2147483648) : goIntOfU32 n = n :=
  int32wrap_eq _ (Int.natCast_nonneg n) (by exact_mod_cast h)

/-- The block-size expression `2 << (read_bl_len - 1)` (Go `uint32` count,
32-bit `int` result) equals `2 ^ read_bl_len` for `1 ≤ read_bl_len ≤ 15`. -/
theorem goShlInt_blocksize (rbl : Nat) (h1 : 1 ≤ rbl) (h15 : rbl ≤ 15) :
    goShlInt 2 (u32sub rbl 1) = (2 : Int) ^ rbl := by
  interval_cases rbl <;> decide

/-- The version-0 / legacy-MMC block count expression equals
`(c_size + 1) * 2 ^ (c_size_mult + 3)` exactly (no wraparound occurs for
`c_size ≤ 0xfff`, `c_size_mult ≤ 7`). -/
theorem v0_blocks_eq (c m : Nat) (hc : c ≤ 0xfff) (hm : m ≤ 7) :
    goIntOfU32 (u32mul (u32add c 1) (u32shl 2 (u32add m 2))) =
      (((c + 1) * 2 ^ (m + 3) : Nat) : Int) := by
  have hm2 : u32add m 2 = m + 2 := u32add_eq _ _ (by unfold U32MOD; omega)
  have hshl : u32shl 2 (m + 2) = 2 ^ (m + 3) := by
    rw [u32shl_two _ (by omega)]
  have hc1 : u32add c 1 = c + 1 := u32add_eq _ _ (by unfold U32MOD; omega)
  have hpow : (2 : Nat) ^ (m + 3) ≤ 2 ^ 10 := Nat.pow_le_pow_right (by omega) (by omega)
  have hmul : u32mul (c + 1) (2 ^ (m + 3)) = (c + 1) * 2 ^ (m + 3) := by
    apply u32mul_eq
    calc (c + 1) * 2 ^ (m + 3) ≤ 4096 * 2 ^ 10 := by
          apply Nat.mul_le_mul (by omega) hpow
      _ < U32MOD := by norm_num [U32MOD]
  rw [hm2, hshl, hc1, hmul]
  apply goIntOfU32_eq
  calc (c + 1) * 2 ^ (m + 3) ≤ 4096 * 2 ^ 10 := Nat.mul_le_mul (by omega) hpow
    _ < 2147483648 := by norm_num

/-- The version-1/2 block count expression `int(c_size+1) * 1024` equals the
32-bit signed truncation of `(c_size + 1) * 1024` for any c_size that fits
its 22- or 28-bit mask. -/
theorem v12_blocks_eq (c : Nat) (hc : c ≤ 0xfffffff) :
    goIntMul (goIntOfU32 (u32add c 1)) 1024 = int32wrap (((c + 1) * 1024 : Nat)) := by
  have h1 : u32add c 1 = c + 1 := u32add_eq _ _ (by unfold U32MOD; omega)
  have h2 : goIntOfU32 (c + 1) = ((c + 1 : Nat) : Int) := goIntOfU32_eq _ (by omega)
  rw [h1, goIntMul, h2]
  have h3 : (((c + 1) * 1024 : Nat) : Int) = ((c + 1 : Nat) : Int) * 1024 := by
    push_cast
    ring
  rw [h3]

/-- The two `read_bl_len` offset constants coincide (both `80 + CSD_RSP_OFF`). -/
theorem rbl2_eq : SD_CSD_READ_BL_LEN_2 = SD_CSD_READ_BL_LEN_1 := rfl

/-- The little-endian 32-bit Extended-CSD word always fits in 32 bits. -/
theorem le32_lt (buf : Nat → Nat) (off : Nat) : le32 buf off < U32MOD := by
  unfold le32 U32MOD
  have h0 : buf off &&& 0xff ≤ 0xff := Nat.and_le_right
  have h1 : buf (off + 1) &&& 0xff ≤ 0xff := Nat.and_le_right
  have h2 : buf (off + 2) &&& 0xff ≤ 0xff := Nat.and_le_right
  have h3 : buf (off + 3) &&& 0xff ≤ 0xff := Nat.and_le_right
  simp only [Nat.shiftLeft_eq]
  norm_num
  omega

/-- `detectCapacitySD` on a version-0 CSD: decode succeeds, block size is
`2^read_bl_len` (for `read_bl_len ≥ 1`), block count is
`(c_size+1)·2^(c_size_mult+3)`. -/
theorem dcsd_v0 (csd rca : Nat) (card : Card)
    (hver : rspVal csd SD_CSD_STRUCTURE 0b11 = 0)
    (hrbl : 1 ≤ rspVal csd SD_CSD_READ_BL_LEN_1 0xf) :
    (detectCapacitySD SD_DEFAULT_BLOCK_SIZE none csd rca card).1 = none ∧
    (detectCapacitySD SD_DEFAULT_BLOCK_SIZE none csd rca card).2.1.BlockSize =
      2 ^ rspVal csd SD_CSD_READ_BL_LEN_1 0xf ∧
    (detectCapacitySD SD_DEFAULT_BLOCK_SIZE none csd rca card).2.1.Blocks =
      (((rspVal csd SD_CSD_C_SIZE_1 0xfff + 1) *
        2 ^ (rspVal csd SD_CSD_C_SIZE_MULT_1 0b111 + 3) : Nat) : Int) := by
  have h15 := rspVal_le csd SD_CSD_READ_BL_LEN_1 0xf
  have hm := rspVal_le csd SD_CSD_C_SIZE_MULT_1 0b111
  have hc := rspVal_le csd SD_CSD_C_SIZE_1 0xfff
  simp only [detectCapacitySD, hver]
  norm_num
  refine ⟨goShlInt_blocksize _ hrbl h15, ?_⟩
  rw [v0_blocks_eq _ _ hc hm]
  push_cast
  ring

/-- `detectCapacitySD` on a version-1 CSD: decode succeeds, block size is
`2^read_bl_len` (for `read_bl_len ≥ 1`), block count is the 32-bit signed
truncation of `(c_size+1)·1024`. -/
theorem dcsd_v1 (csd rca : Nat) (card : Card)
    (hver : rspVal csd SD_CSD_STRUCTURE 0b11 = 1)
    (hrbl : 1 ≤ rspVal csd SD_CSD_READ_BL_LEN_1 0xf) :
    (detectCapacitySD SD_DEFAULT_BLOCK_SIZE none csd rca card).1 = none ∧
    (detectCapacitySD SD_DEFAULT_BLOCK_SIZE none csd rca card).2.1.BlockSize =
      2 ^ rspVal csd SD_CSD_READ_BL_LEN_1 0xf ∧
    (detectCapacitySD SD_DEFAULT_BLOCK_SIZE none csd rca card).2.1.Blocks =
      int32wrap (((rspVal csd SD_CSD_C_SIZE_2 0x3fffff + 1) * 1024 : Nat)) := by
  have h15 := rspVal_le csd SD_CSD_READ_BL_LEN_1 0xf
  have hc := rspVal_le csd SD_CSD_C_SIZE_2 0x3fffff
  have hne : rspVal csd SD_CSD_STRUCTURE 0b11 ≠ 0 := by omega
  simp only [detectCapacitySD, hver]
  norm_num
  rw [rbl2_eq]
  exact ⟨goShlInt_blocksize _ hrbl h15, v12_blocks_eq _ (by omega)⟩

/-- `detectCapacitySD` on a version-2 CSD: decode succeeds, block size is
`2^read_bl_len` (for `read_bl_len ≥ 1`), block count is the 32-bit signed
truncation of `(c_size+1)·1024` with the wider 28-bit c_size mask. -/
theorem dcsd_v2 (csd rca : Nat) (card : Card)
    (hver : rspVal csd SD_CSD_STRUCTURE 0b11 = 2)
    (hrbl : 1 ≤ rspVal csd SD_CSD_READ_BL_LEN_1 0xf) :
    (detectCapacitySD SD_DEFAULT_BLOCK_SIZE none csd rca card).1 = none ∧
    (detectCapacitySD SD_DEFAULT_BLOCK_SIZE none csd rca card).2.1.BlockSize =
      2 ^ rspVal csd SD_CSD_READ_BL_LEN_1 0xf ∧
    (detectCapacitySD SD_DEFAULT_BLOCK_SIZE none csd rca card).2.1.Blocks =
      int32wrap (((rspVal csd SD_CSD_C_SIZE_2 0xfffffff + 1) * 1024 : Nat)) := by
  have h15 := rspVal_le csd SD_CSD_READ_BL_LEN_1 0xf
  have hc := rspVal_le csd SD_CSD_C_SIZE_2 0xfffffff
  simp only [detectCapacitySD, hver]
  norm_num
  rw [rbl2_eq]
  exact ⟨goShlInt_blocksize _ hrbl h15, v12_blocks_eq _ (by omega)⟩

/-- `detectCapacityMMC` on the legacy path (`c_size ≤ 0xff`): block size is
`2^read_bl_len` (for `read_bl_len ≥ 1`), block count is
`(c_size+1)·2^(c_size_mult+3)`; no transfer is issued. -/
theorem dcmmc_legacy (bs m c rbl : Nat) (buf : Nat → Nat) (card : Card)
    (hgt : ¬ c > 0xff) (hm : m ≤ 7) (hc : c ≤ 0xfff) (h15 : rbl ≤ 15) (hrbl : 1 ≤ rbl) :
    (detectCapacityMMC bs m c rbl none buf card).1 = none ∧
    (detectCapacityMMC bs m c rbl none buf card).2.1.BlockSize = 2 ^ rbl ∧
    (detectCapacityMMC bs m c rbl none buf card).2.1.Blocks =
      (((c + 1) * 2 ^ (m + 3) : Nat) : Int) := by
  simp only [detectCapacityMMC, hgt]
  norm_num
  refine ⟨goShlInt_blocksize _ hrbl h15, ?_⟩
  rw [v0_blocks_eq _ _ hc hm]
  push_cast
  ring

/-- `detectCapacityMMC` on the emulation path (`c_size > 0xff`) with a
successful transfer: block size is the transfer block size, block count the
32-bit signed reinterpretation of the little-endian sector-count word. -/
theorem dcmmc_emul (bs m c rbl : Nat) (buf : Nat → Nat) (card : Card)
    (hgt : c > 0xff) :
    (detectCapacityMMC bs m c rbl none buf card).1 = none ∧
    (detectCapacityMMC bs m c rbl none buf card).2.1.BlockSize = (bs : Int) ∧
    (detectCapacityMMC bs m c rbl none buf card).2.1.Blocks =
      goIntOfU32 (le32 buf EXT_CSD_SEC_COUNT) ∧
    (detectCapacityMMC bs m c rbl none buf card).2.2 = [Ev.xfer 8 1 (u32 bs)] := by
  have hu : u32 (le32 buf EXT_CSD_SEC_COUNT) = le32 buf EXT_CSD_SEC_COUNT :=
    Nat.mod_eq_of_lt (le32_lt buf EXT_CSD_SEC_COUNT)
  simp only [detectCapacityMMC, hgt]
  norm_num
  rw [hu]

/-- Claim C1, counterexample: on a version-0 CSD with `read_bl_len = 9`,
`c_size = 0`, `c_size_mult = 0`, the code sets block size 512 = 2^9 (the
claim's formula `2^(read_bl_len-1)` gives 256) and block count
8 = (c_size+1)·2^(c_size_mult+3) (the claim's formula gives 4); and on a
version-1 CSD with the maximal 22-bit `c_size = 0x3fffff` the 32-bit `int`
block count wraps to 0 instead of the claimed (c_size+1)·1024 = 2^32. -/
theorem claimC1_counterexample :
    (detectCapacitySD SD_DEFAULT_BLOCK_SIZE none (9 <<< 72) 0 Card.zero).2.1.BlockSize = 512
    ∧ (512 : Int) ≠ 2 ^ (9 - 1)
    ∧ (detectCapacitySD SD_DEFAULT_BLOCK_SIZE none (9 <<< 72) 0 Card.zero).2.1.Blocks = 8
    ∧ (8 : Int) ≠ (0 + 1) * 2 ^ (0 + 2)
    ∧ (detectCapacitySD SD_DEFAULT_BLOCK_SIZE none
        ((1 <<< 118) ||| (9 <<< 72) ||| (0x3fffff <<< 40)) 0 Card.zero).2.1.Blocks = 0
    ∧ (0 : Int) ≠ (((0x3fffff + 1) * 1024 : Nat) : Int) := by
  refine ⟨by decide, by decide, by decide, by decide, by decide, by decide⟩

/-- Claim C1 (amended): for every 136-bit CSD response whose
structure-version field is 0, 1, or 2, `detectCapacitySD` succeeds; for
`read_bl_len ≥ 1` the block size is `2^read_bl_len` bytes (so version 0 with
`read_bl_len = 9` yields 512-byte blocks; `read_bl_len = 0` would give 0 via
the 32-bit shift wraparound); the block count is `(c_size+1) * 2^(c_size_mult+3)`
for version 0 (12-bit c_size, 3-bit c_size_mult, exact) and the 32-bit
signed truncation of `(c_size+1) * 1024` for version 1 (22-bit c_size) and
version 2 (28-bit c_size), exact whenever that value is below 2^31. -/
theorem claimC1_theorem (csd rca : Nat) (card : Card) :
    (rspVal csd SD_CSD_STRUCTURE 0b11 = 0 →
      1 ≤ rspVal csd SD_CSD_READ_BL_LEN_1 0xf →
      (detectCapacitySD SD_DEFAULT_BLOCK_SIZE none csd rca card).1 = none ∧
      (detectCapacitySD SD_DEFAULT_BLOCK_SIZE none csd rca card).2.1.BlockSize =
        2 ^ rspVal csd SD_CSD_READ_BL_LEN_1 0xf ∧
      (detectCapacitySD SD_DEFAULT_BLOCK_SIZE none csd rca card).2.1.Blocks =
        (((rspVal csd SD_CSD_C_SIZE_1 0xfff + 1) *
          2 ^ (rspVal csd SD_CSD_C_SIZE_MULT_1 0b111 + 3) : Nat) : Int))
    ∧ (rspVal csd SD_CSD_STRUCTURE 0b11 = 1 →
      1 ≤ rspVal csd SD_CSD_READ_BL_LEN_1 0xf →
      (detectCapacitySD SD_DEFAULT_BLOCK_SIZE none csd rca card).1 = none ∧
      (detectCapacitySD SD_DEFAULT_BLOCK_SIZE none csd rca card).2.1.BlockSize =
        2 ^ rspVal csd SD_CSD_READ_BL_LEN_1 0xf ∧
      (detectCapacitySD SD_DEFAULT_BLOCK_SIZE none csd rca card).2.1.Blocks =
        int32wrap (((rspVal csd SD_CSD_C_SIZE_2 0x3fffff + 1) * 1024 : Nat)))
    ∧ (rspVal csd SD_CSD_STRUCTURE 0b11 = 2 →
      1 ≤ rspVal csd SD_CSD_READ_BL_LEN_1 0xf →
      (detectCapacitySD SD_DEFAULT_BLOCK_SIZE none csd rca card).1 = none ∧
      (detectCapacitySD SD_DEFAULT_BLOCK_SIZE none csd rca card).2.1.BlockSize =
        2 ^ rspVal csd SD_CSD_READ_BL_LEN_1 0xf ∧
      (detectCapacitySD SD_DEFAULT_BLOCK_SIZE none csd rca card).2.1.Blocks =
        int32wrap (((rspVal csd SD_CSD_C_SIZE_2 0xfffffff + 1) * 1024 : Nat))) :=
  ⟨fun hver hrbl => dcsd_v0 csd rca card hver hrbl,
   fun hver hrbl => dcsd_v1 csd rca card hver hrbl,
   fun hver hrbl => dcsd_v2 csd rca card hver hrbl⟩

/-- Claim C1, witness: the amended theorem applied to a concrete version-0
CSD bit pattern with `read_bl_len = 9`, `c_size = 0`, `c_size_mult = 0`. -/
theorem claimC1_witness :
    (detectCapacitySD SD_DEFAULT_BLOCK_SIZE none (9 <<< 72) 0 Card.zero).1 = none ∧
    (detectCapacitySD SD_DEFAULT_BLOCK_SIZE none (9 <<< 72) 0 Card.zero).2.1.BlockSize =
      2 ^ rspVal (9 <<< 72) SD_CSD_READ_BL_LEN_1 0xf ∧
    (detectCapacitySD SD_DEFAULT_BLOCK_SIZE none (9 <<< 72) 0 Card.zero).2.1.Blocks =
      (((rspVal (9 <<< 72) SD_CSD_C_SIZE_1 0xfff + 1) *
        2 ^ (rspVal (9 <<< 72) SD_CSD_C_SIZE_MULT_1 0b111 + 3) : Nat) : Int) :=
  (claimC1_theorem (9 <<< 72) 0 Card.zero).1 (by decide) (by decide)

/-- Claim C9, counterexample: a version-0 CSD whose `read_bl_len` field is 0
makes `detectCapacitySD` succeed with block size 0 (the Go expression
`2 << (read_bl_len - 1)` left-shifts by the wrapped `uint32` count
4294967295, yielding 0), and an Extended-CSD sector count of 0 makes
`detectCapacityMMC` succeed with block count 0 — both contradicting the
claimed positivity for every possible field value. -/
theorem claimC9_counterexample :
    (detectCapacitySD SD_DEFAULT_BLOCK_SIZE none 0 0 Card.zero).1 = none
    ∧ ¬ 0 < (detectCapacitySD SD_DEFAULT_BLOCK_SIZE none 0 0 Card.zero).2.1.BlockSize
    ∧ (detectCapacityMMC 512 0 0x100 9 none (fun _ => 0) Card.zero).1 = none
    ∧ ¬ 0 < (detectCapacityMMC 512 0 0x100 9 none (fun _ => 0) Card.zero).2.1.Blocks := by
  refine ⟨by decide, by decide, by decide, by decide⟩

/-- Claim C9 (amended): error-free capacity decodes yield positive block size
and block count provided the decoded `read_bl_len` is at least 1 (a zero
`read_bl_len` yields block size 0 through the 32-bit shift wraparound), the
version-1/2 block-count value `(c_size+1)*1024` lies below 2^31 (otherwise
the 32-bit `int` wraps to zero or negative), and — on the eMMC emulation
path — the transfer block size is positive and the Extended-CSD sector count
lies in [1, 2^31). -/
theorem claimC9_theorem :
    (∀ csd rca card,
      rspVal csd SD_CSD_STRUCTURE 0b11 ≤ 2 →
      1 ≤ rspVal csd SD_CSD_READ_BL_LEN_1 0xf →
      (rspVal csd SD_CSD_STRUCTURE 0b11 = 1 →
        (rspVal csd SD_CSD_C_SIZE_2 0x3fffff + 1) * 1024 < 2147483648) →
      (rspVal csd SD_CSD_STRUCTURE 0b11 = 2 →
        (rspVal csd SD_CSD_C_SIZE_2 0xfffffff + 1) * 1024 < 2147483648) →
      (detectCapacitySD SD_DEFAULT_BLOCK_SIZE none csd rca card).1 = none ∧
      0 < (detectCapacitySD SD_DEFAULT_BLOCK_SIZE none csd rca card).2.1.BlockSize ∧
      0 < (detectCapacitySD SD_DEFAULT_BLOCK_SIZE none csd rca card).2.1.Blocks)
    ∧ (∀ bs m c rbl buf card, m ≤ 7 → c ≤ 0xfff → rbl ≤ 15 → 1 ≤ rbl → 0 < bs →
      1 ≤ le32 buf EXT_CSD_SEC_COUNT → le32 buf EXT_CSD_SEC_COUNT < 2147483648 →
      (detectCapacityMMC bs m c rbl none buf card).1 = none ∧
      0 < (detectCapacityMMC bs m c rbl none buf card).2.1.BlockSize ∧
      0 < (detectCapacityMMC bs m c rbl none buf card).2.1.Blocks) := by
  constructor
  · intro csd rca card hver hrbl hb1 hb2
    by_cases hv0 : rspVal csd SD_CSD_STRUCTURE 0b11 = 0
    · obtain ⟨he, hbs, hbk⟩ := dcsd_v0 csd rca card hv0 hrbl
      refine ⟨he, ?_, ?_⟩
      · rw [hbs]
        positivity
      · rw [hbk]
        have : 0 < (rspVal csd SD_CSD_C_SIZE_1 0xfff + 1) *
            2 ^ (rspVal csd SD_CSD_C_SIZE_MULT_1 0b111 + 3) := by positivity
        exact_mod_cast this
    · by_cases hv1 : rspVal csd SD_CSD_STRUCTURE 0b11 = 1
      · obtain ⟨he, hbs, hbk⟩ := dcsd_v1 csd rca card hv1 hrbl
        refine ⟨he, ?_, ?_⟩
        · rw [hbs]
          positivity
        · rw [hbk, int32wrap_eq _ (Int.natCast_nonneg _) (by exact_mod_cast hb1 hv1)]
          have : 0 < (rspVal csd SD_CSD_C_SIZE_2 0x3fffff + 1) * 1024 := by positivity
          exact_mod_cast this
      · have hv2 : rspVal csd SD_CSD_STRUCTURE 0b11 = 2 := by omega
        obtain ⟨he, hbs, hbk⟩ := dcsd_v2 csd rca card hv2 hrbl
        refine ⟨he, ?_, ?_⟩
        · rw [hbs]
          positivity
        · rw [hbk, int32wrap_eq _ (Int.natCast_nonneg _) (by exact_mod_cast hb2 hv2)]
          have : 0 < (rspVal csd SD_CSD_C_SIZE_2 0xfffffff + 1) * 1024 := by positivity
          exact_mod_cast this
  · intro bs m c rbl buf card hm hc h15 hrbl hbs hsec1 hsec2
    by_cases hgt : c > 0xff
    · obtain ⟨he, hb, hk, _⟩ := dcmmc_emul bs m c rbl buf card hgt
      refine ⟨he, ?_, ?_⟩
      · rw [hb]
        exact_mod_cast hbs
      · rw [hk, goIntOfU32_eq _ hsec2]
        exact_mod_cast hsec1
    · obtain ⟨he, hb, hk⟩ := dcmmc_legacy bs m c rbl buf card hgt hm hc h15 hrbl
      refine ⟨he, ?_, ?_⟩
      · rw [hb]
        exact pow_pos (by norm_num) rbl
      · rw [hk]
        have hpos : 0 < (c + 1) * 2 ^ (m + 3) :=
          Nat.mul_pos (Nat.succ_pos c) (pow_pos (by norm_num) (m + 3))
        exact Int.natCast_pos.mpr hpos

/-- Claim C9, witness: both halves of the amended theorem at concrete
inputs — a version-0 SD CSD with `read_bl_len = 9`, and an eMMC emulation
decode with `c_size = 0x100` and a buffer of all-one bytes. -/
theorem claimC9_witness :
    ((detectCapacitySD SD_DEFAULT_BLOCK_SIZE none (10 <<< 72) 0 Card.zero).1 = none ∧
      0 < (detectCapacitySD SD_DEFAULT_BLOCK_SIZE none (10 <<< 72) 0 Card.zero).2.1.BlockSize ∧
      0 < (detectCapacitySD SD_DEFAULT_BLOCK_SIZE none (10 <<< 72) 0 Card.zero).2.1.Blocks)
    ∧ ((detectCapacityMMC 512 0 0x100 9 none (fun _ => 1) Card.zero).1 = none ∧
      0 < (detectCapacityMMC 512 0 0x100 9 none (fun _ => 1) Card.zero).2.1.BlockSize ∧
      0 < (detectCapacityMMC 512 0 0x100 9 none (fun _ => 1) Card.zero).2.1.Blocks) :=
  ⟨claimC9_theorem.1 (10 <<< 72) 0 Card.zero (by decide) (by decide)
      (fun h => absurd h (by decide)) (fun h => absurd h (by decide)),
    claimC9_theorem.2 512 0 0x100 9 (fun _ => 1) Card.zero (by decide) (by decide)
      (by decide) (by decide) (by decide) (by decide) (by decide)⟩

/-- Claim C2, counterexample: on the legacy path with `read_bl_len = 0` the
code sets block size 0, not the claimed `2^(read_bl_len-1)*2`; and on the
emulation path an Extended-CSD sector count of 2^31 is stored as the negative
32-bit `int` -2^31, not the little-endian 32-bit value itself. -/
theorem claimC2_counterexample :
    (detectCapacityMMC 512 0 0x10 0 none (fun _ => 0) Card.zero).1 = none
    ∧ (detectCapacityMMC 512 0 0x10 0 none (fun _ => 0) Card.zero).2.1.BlockSize = 0
    ∧ (0 : Int) ≠ 2 ^ (0 - 1) * 2
    ∧ (detectCapacityMMC 512 0 0x100 9 none
        (fun i => if i = 215 then 0x80 else 0) Card.zero).1 = none
    ∧ (detectCapacityMMC 512 0 0x100 9 none
        (fun i => if i = 215 then 0x80 else 0) Card.zero).2.1.Blocks = -2147483648
    ∧ (-2147483648 : Int) ≠
        ((le32 (fun i => if i = 215 then 0x80 else 0) EXT_CSD_SEC_COUNT : Nat) : Int) := by
  refine ⟨by decide, by decide, by decide, by decide, by decide, by decide⟩

/-- Claim C2 (amended): for every eMMC CSD with `c_size ≤ 0xff` and
`read_bl_len ≥ 1`, `detectCapacityMMC` computes block size
`2^(read_bl_len-1)*2` and block count `(c_size+1) * 2^(c_size_mult+3)` from
the legacy CSD fields alone (`read_bl_len = 0` would give block size 0 via
the 32-bit shift wraparound); for `c_size > 0xff` it sets block size to the
transfer block size, reads one block of Extended CSD via a CMD8 data
transfer, and sets block count to the 32-bit signed reinterpretation of the
little-endian 32-bit value at byte offset 212 (SEC_COUNT) — equal to that
value whenever it is below 2^31 — independent of the legacy
c_size/c_size_mult/read_bl_len fields. -/
theorem claimC2_theorem :
    (∀ bs m c rbl buf card, c ≤ 0xff → m ≤ 7 → rbl ≤ 15 → 1 ≤ rbl →
      (detectCapacityMMC bs m c rbl none buf card).1 = none ∧
      (detectCapacityMMC bs m c rbl none buf card).2.1.BlockSize = 2 ^ (rbl - 1) * 2 ∧
      (detectCapacityMMC bs m c rbl none buf card).2.1.Blocks =
        (((c + 1) * 2 ^ (m + 3) : Nat) : Int) ∧
      (detectCapacityMMC bs m c rbl none buf card).2.2 = [])
    ∧ (∀ bs m c rbl buf card, c > 0xff →
      (detectCapacityMMC bs m c rbl none buf card).1 = none ∧
      (detectCapacityMMC bs m c rbl none buf card).2.1.BlockSize = (bs : Int) ∧
      (detectCapacityMMC bs m c rbl none buf card).2.2 = [Ev.xfer 8 1 (u32 bs)] ∧
      (detectCapacityMMC bs m c rbl none buf card).2.1.Blocks =
        int32wrap ((le32 buf EXT_CSD_SEC_COUNT : Nat)) ∧
      (le32 buf EXT_CSD_SEC_COUNT < 2147483648 →
        (detectCapacityMMC bs m c rbl none buf card).2.1.Blocks =
          ((le32 buf EXT_CSD_SEC_COUNT : Nat) : Int))) := by
  constructor
  · intro bs m c rbl buf card hc hm h15 hrbl
    have hgt : ¬ c > 0xff := by omega
    obtain ⟨he, hb, hk⟩ := dcmmc_legacy bs m c rbl buf card hgt hm (by omega) h15 hrbl
    refine ⟨he, ?_, hk, ?_⟩
    · rw [hb]
      have h : rbl - 1 + 1 = rbl := Nat.succ_pred_eq_of_pos hrbl
      calc (2 : Int) ^ rbl = 2 ^ (rbl - 1 + 1) := by rw [h]
        _ = 2 ^ (rbl - 1) * 2 := pow_succ 2 (rbl - 1)
    · simp only [detectCapacityMMC, hgt]
      norm_num
  · intro bs m c rbl buf card hgt
    obtain ⟨he, hb, hk, htr⟩ := dcmmc_emul bs m c rbl buf card hgt
    exact ⟨he, hb, htr, hk, fun hlt => by rw [hk, goIntOfU32_eq _ hlt]⟩

/-- Claim C2, witness: both paths of the amended theorem at concrete inputs
(legacy decode with `c_size = 0x10`, `read_bl_len = 9`; emulation decode with
`c_size = 0x100` and an all-one-byte Extended CSD buffer). -/
theorem claimC2_witness :
    ((detectCapacityMMC 512 3 0x10 9 none (fun _ => 0) Card.zero).1 = none ∧
      (detectCapacityMMC 512 3 0x10 9 none (fun _ => 0) Card.zero).2.1.BlockSize =
        2 ^ (9 - 1) * 2 ∧
      (detectCapacityMMC 512 3 0x10 9 none (fun _ => 0) Card.zero).2.1.Blocks =
        (((0x10 + 1) * 2 ^ (3 + 3) : Nat) : Int) ∧
      (detectCapacityMMC 512 3 0x10 9 none (fun _ => 0) Card.zero).2.2 = [])
    ∧ ((detectCapacityMMC 512 3 0x100 9 none (fun _ => 1) Card.zero).1 = none ∧
      (detectCapacityMMC 512 3 0x100 9 none (fun _ => 1) Card.zero).2.1.BlockSize = (512 : Int) ∧
      (detectCapacityMMC 512 3 0x100 9 none (fun _ => 1) Card.zero).2.2 =
        [Ev.xfer 8 1 (u32 512)] ∧
      (detectCapacityMMC 512 3 0x100 9 none (fun _ => 1) Card.zero).2.1.Blocks =
        int32wrap ((le32 (fun _ => 1) EXT_CSD_SEC_COUNT : Nat)) ∧
      (le32 (fun _ => 1) EXT_CSD_SEC_COUNT < 2147483648 →
        (detectCapacityMMC 512 3 0x100 9 none (fun _ => 1) Card.zero).2.1.Blocks =
          ((le32 (fun _ => 1) EXT_CSD_SEC_COUNT : Nat) : Int))) :=
  ⟨claimC2_theorem.1 512 3 0x10 9 (fun _ => 0) Card.zero (by decide) (by decide)
      (by decide) (by decide),
    claimC2_theorem.2 512 3 0x100 9 (fun _ => 1) Card.zero (by decide)⟩

theorem countCmd_append (idx : Nat) (a b : List Ev) :
    countCmd idx (a ++ b) = countCmd idx a + countCmd idx b := by
  induction a with
  | nil => simp [countCmd]
  | cons e tl ih =>
    cases e <;> simp [countCmd, ih] <;> omega

/-- The CMD8 probe trace contains no CMD55/ACMD41/CMD1 commands. -/
theorem sdProbe_countCmd (env : SDVVEnv) (i : Nat) (h : i ≠ 8) :
    countCmd i (sdProbe env).2.2 = 0 := by
  simp only [sdProbe]
  split_ifs <;> simp [countCmd, Ne.symm h]

/-- Success run of the SD operating-condition loop: busy clear for the first
`N` iterations, busy set at iteration `N`, all `N+1` condition checks inside
the deadline: the loop returns success after exactly `N+1` CMD55+ACMD41
pairs, with the high-capacity result ored from the HCS bit. -/
theorem sdLoop_success (it : Nat → SDIter) (t : Nat → Nat) (arg : Nat) (N : Nat) :
    ∀ k fuel hc,
    (∀ j, j < N → ∃ r, it (k + j) = SDIter.rsp r ∧ bitsGet r SD_OCR_BUSY 1 = 0) →
    ∀ rN, it (k + N) = SDIter.rsp rN → bitsGet rN SD_OCR_BUSY 1 = 1 →
    (∀ j, j ≤ N → t (k + j) ≤ SD_DETECT_TIMEOUT) →
    N < fuel →
    ∃ tr, sdOpCondLoop it t arg fuel k hc =
        some ((true, if bitsGet rN SD_OCR_HCS 1 == 1 then true else hc), tr) ∧
      countCmd 55 tr = N + 1 ∧ countCmd 41 tr = N + 1 := by
  induction N with
  | zero =>
    intro k fuel hc _ rN hitN hbusy ht hfuel
    obtain ⟨f, rfl⟩ : ∃ f, fuel = f + 1 := ⟨fuel - 1, by omega⟩
    rw [Nat.add_zero] at hitN
    have htk : t k ≤ SD_DETECT_TIMEOUT := by simpa using ht 0 (by omega)
    refine ⟨[Ev.cmd 55 0, Ev.cmd 41 arg], ?_, by simp [countCmd], by simp [countCmd]⟩
    simp [sdOpCondLoop, htk, hitN, hbusy]
  | succ n ih =>
    intro k fuel hc hclear rN hitN hbusy ht hfuel
    obtain ⟨f, rfl⟩ : ∃ f, fuel = f + 1 := ⟨fuel - 1, by omega⟩
    have htk : t k ≤ SD_DETECT_TIMEOUT := by simpa using ht 0 (by omega)
    obtain ⟨r0, hit0, hbusy0⟩ := by simpa using hclear 0 (by omega)
    obtain ⟨tr, htr, h55, h41⟩ := ih (k + 1) f hc
      (fun j hj => by
        have := hclear (j + 1) (by omega)
        rwa [show k + (j + 1) = k + 1 + j by omega] at this)
      rN (by rwa [show k + (n + 1) = k + 1 + n by omega] at hitN)
      hbusy
      (fun j hj => by
        have := ht (j + 1) (by omega)
        rwa [show k + (j + 1) = k + 1 + j by omega] at this)
      (by omega)
    refine ⟨Ev.cmd 55 0 :: Ev.cmd 41 arg :: tr, ?_, ?_, ?_⟩
    · simp [sdOpCondLoop, htk, hit0, hbusy0, htr]
    · simp [countCmd, h55]
      omega
    · simp [countCmd, h41]
      omega

/-- Deadline-expiry run of the SD operating-condition loop: busy clear for
the first `K` iterations (all inside the deadline), the `K`-th condition
check past the deadline: the loop returns the failure result `(false, false)`
after exactly `K` pairs. -/
theorem sdLoop_deadline (it : Nat → SDIter) (t : Nat → Nat) (arg : Nat) (K : Nat) :
    ∀ k fuel hc,
    (∀ j, j < K → t (k + j) ≤ SD_DETECT_TIMEOUT ∧
      ∃ r, it (k + j) = SDIter.rsp r ∧ bitsGet r SD_OCR_BUSY 1 = 0) →
    SD_DETECT_TIMEOUT < t (k + K) → K < fuel →
    ∃ tr, sdOpCondLoop it t arg fuel k hc = some ((false, false), tr) ∧
      countCmd 55 tr = K ∧ countCmd 41 tr = K := by
  induction K with
  | zero =>
    intro k fuel hc _ htK hfuel
    obtain ⟨f, rfl⟩ : ∃ f, fuel = f + 1 := ⟨fuel - 1, by omega⟩
    rw [Nat.add_zero] at htK
    refine ⟨[], ?_, rfl, rfl⟩
    simp [sdOpCondLoop, Nat.not_le.mpr htK, Nat.not_le_of_lt htK]
  | succ n ih =>
    intro k fuel hc hclear htK hfuel
    obtain ⟨f, rfl⟩ : ∃ f, fuel = f + 1 := ⟨fuel - 1, by omega⟩
    obtain ⟨htk, r0, hit0, hbusy0⟩ := by simpa using hclear 0 (by omega)
    obtain ⟨tr, htr, h55, h41⟩ := ih (k + 1) f hc
      (fun j hj => by
        have := hclear (j + 1) (by omega)
        rwa [show k + (j + 1) = k + 1 + j by omega] at this)
      (by rwa [show k + (n + 1) = k + 1 + n by omega] at htK)
      (by omega)
    refine ⟨Ev.cmd 55 0 :: Ev.cmd 41 arg :: tr, ?_, ?_, ?_⟩
    · simp [sdOpCondLoop, htk, hit0, hbusy0, htr]
    · simp [countCmd, h55]
      omega
    · simp [countCmd, h41]
      omega

/-- A CMD55 hardware failure inside the SD loop returns the same
`(false, false)` failure value as a deadline expiry. -/
theorem sdLoop_cmdfail (it : Nat → SDIter) (t : Nat → Nat) (arg : Nat)
    (k fuel : Nat) (hc : Bool) (e : Nat)
    (htk : t k ≤ SD_DETECT_TIMEOUT) (hit : it k = SDIter.fail55 e) :
    sdOpCondLoop it t arg (fuel + 1) k hc = some ((false, false), [Ev.cmd 55 0]) := by
  simp [sdOpCondLoop, htk, hit]

/-- Success run of the MMC operating-condition loop (CMD1 polling): analogous
to the SD case, with the sector-access-mode field deciding high capacity. -/
theorem mmcLoop_success (it : Nat → MMCIter) (t : Nat → Nat) (arg : Nat) (N : Nat) :
    ∀ k fuel hc,
    (∀ j, j < N → ∃ r, it (k + j) = MMCIter.rsp r ∧ bitsGet r MMC_OCR_BUSY 1 = 0) →
    ∀ rN, it (k + N) = MMCIter.rsp rN → bitsGet rN MMC_OCR_BUSY 1 = 1 →
    (∀ j, j ≤ N → t (k + j) ≤ MMC_DETECT_TIMEOUT) →
    N < fuel →
    ∃ tr, mmcOpCondLoop it t arg fuel k hc =
        some ((true,
          if bitsGet rN MMC_OCR_ACCESS_MODE 0b11 == ACCESS_MODE_SECTOR then true else hc), tr) ∧
      countCmd 1 tr = N + 1 := by
  induction N with
  | zero =>
    intro k fuel hc _ rN hitN hbusy ht hfuel
    obtain ⟨f, rfl⟩ : ∃ f, fuel = f + 1 := ⟨fuel - 1, by omega⟩
    rw [Nat.add_zero] at hitN
    have htk : t k ≤ MMC_DETECT_TIMEOUT := by simpa using ht 0 (by omega)
    refine ⟨[Ev.cmd 1 arg], ?_, by simp [countCmd]⟩
    simp [mmcOpCondLoop, htk, hitN, hbusy]
  | succ n ih =>
    intro k fuel hc hclear rN hitN hbusy ht hfuel
    obtain ⟨f, rfl⟩ : ∃ f, fuel = f + 1 := ⟨fuel - 1, by omega⟩
    have htk : t k ≤ MMC_DETECT_TIMEOUT := by simpa using ht 0 (by omega)
    obtain ⟨r0, hit0, hbusy0⟩ := by simpa using hclear 0 (by omega)
    obtain ⟨tr, htr, h1⟩ := ih (k + 1) f hc
      (fun j hj => by
        have := hclear (j + 1) (by omega)
        rwa [show k + (j + 1) = k + 1 + j by omega] at this)
      rN (by rwa [show k + (n + 1) = k + 1 + n by omega] at hitN)
      hbusy
      (fun j hj => by
        have := ht (j + 1) (by omega)
        rwa [show k + (j + 1) = k + 1 + j by omega] at this)
      (by omega)
    refine ⟨Ev.cmd 1 arg :: tr, ?_, ?_⟩
    · simp [mmcOpCondLoop, htk, hit0, hbusy0, htr]
    · simp [countCmd, h1]
      omega

/-- Deadline-expiry run of the MMC operating-condition loop. -/
theorem mmcLoop_deadline (it : Nat → MMCIter) (t : Nat → Nat) (arg : Nat) (K : Nat) :
    ∀ k fuel hc,
    (∀ j, j < K → t (k + j) ≤ MMC_DETECT_TIMEOUT ∧
      ∃ r, it (k + j) = MMCIter.rsp r ∧ bitsGet r MMC_OCR_BUSY 1 = 0) →
    MMC_DETECT_TIMEOUT < t (k + K) → K < fuel →
    ∃ tr, mmcOpCondLoop it t arg fuel k hc = some ((false, false), tr) ∧
      countCmd 1 tr = K := by
  induction K with
  | zero =>
    intro k fuel hc _ htK hfuel
    obtain ⟨f, rfl⟩ : ∃ f, fuel = f + 1 := ⟨fuel - 1, by omega⟩
    rw [Nat.add_zero] at htK
    refine ⟨[], ?_, rfl⟩
    simp [mmcOpCondLoop, Nat.not_le.mpr htK]
  | succ n ih =>
    intro k fuel hc hclear htK hfuel
    obtain ⟨f, rfl⟩ : ∃ f, fuel = f + 1 := ⟨fuel - 1, by omega⟩
    obtain ⟨htk, r0, hit0, hbusy0⟩ := by simpa using hclear 0 (by omega)
    obtain ⟨tr, htr, h1⟩ := ih (k + 1) f hc
      (fun j hj => by
        have := hclear (j + 1) (by omega)
        rwa [show k + (j + 1) = k + 1 + j by omega] at this)
      (by rwa [show k + (n + 1) = k + 1 + n by omega] at htK)
      (by omega)
    refine ⟨Ev.cmd 1 arg :: tr, ?_, ?_⟩
    · simp [mmcOpCondLoop, htk, hit0, hbusy0, htr]
    · simp [countCmd, h1]
      omega

/-- A CMD1 hardware failure inside the MMC loop returns the same
`(false, false)` failure value as a deadline expiry. -/
theorem mmcLoop_cmdfail (it : Nat → MMCIter) (t : Nat → Nat) (arg : Nat)
    (k fuel : Nat) (hc : Bool) (e : Nat)
    (htk : t k ≤ MMC_DETECT_TIMEOUT) (hit : it k = MMCIter.fail e) :
    mmcOpCondLoop it t arg (fuel + 1) k hc = some ((false, false), [Ev.cmd 1 arg]) := by
  simp [mmcOpCondLoop, htk, hit]

/-- Claim C5: if the operating-condition response reports the busy bit clear
on the first N polls and set on poll N+1 (with every check inside the
1-second deadline), `voltageValidationSD` issues exactly N+1 CMD55+ACMD41
pairs and returns success, and `voltageValidationMMC` issues exactly N+1
CMD1 commands and returns success; if the deadline elapses with the busy bit
never observed set, both return the failure value `(false, false)`. -/
theorem claimC5_theorem :
    (∀ (env : SDVVEnv) (fuel N rN : Nat),
      (∀ j, j < N → ∃ r, env.iter j = SDIter.rsp r ∧ bitsGet r SD_OCR_BUSY 1 = 0) →
      env.iter N = SDIter.rsp rN → bitsGet rN SD_OCR_BUSY 1 = 1 →
      (∀ j, j ≤ N → env.t j ≤ SD_DETECT_TIMEOUT) → N < fuel →
      ∃ hc tr, voltageValidationSD env fuel = some ((true, hc), tr) ∧
        countCmd 55 tr = N + 1 ∧ countCmd 41 tr = N + 1)
    ∧ (∀ (env : SDVVEnv) (fuel K : Nat),
      (∀ j, j < K → env.t j ≤ SD_DETECT_TIMEOUT ∧
        ∃ r, env.iter j = SDIter.rsp r ∧ bitsGet r SD_OCR_BUSY 1 = 0) →
      SD_DETECT_TIMEOUT < env.t K → K < fuel →
      ∃ tr, voltageValidationSD env fuel = some ((false, false), tr))
    ∧ (∀ (env : MMCVVEnv) (fuel N rN : Nat),
      (∀ j, j < N → ∃ r, env.iter j = MMCIter.rsp r ∧ bitsGet r MMC_OCR_BUSY 1 = 0) →
      env.iter N = MMCIter.rsp rN → bitsGet rN MMC_OCR_BUSY 1 = 1 →
      (∀ j, j ≤ N → env.t j ≤ MMC_DETECT_TIMEOUT) → N < fuel →
      ∃ hc tr, voltageValidationMMC env fuel = some ((true, hc), tr) ∧
        countCmd 1 tr = N + 1)
    ∧ (∀ (env : MMCVVEnv) (fuel K : Nat),
      (∀ j, j < K → env.t j ≤ MMC_DETECT_TIMEOUT ∧
        ∃ r, env.iter j = MMCIter.rsp r ∧ bitsGet r MMC_OCR_BUSY 1 = 0) →
      MMC_DETECT_TIMEOUT < env.t K → K < fuel →
      ∃ tr, voltageValidationMMC env fuel = some ((false, false), tr)) := by
  refine ⟨?_, ?_, ?_, ?_⟩
  · intro env fuel N rN hclear hitN hbusy ht hfuel
    obtain ⟨tr, htr, h55, h41⟩ := sdLoop_success env.iter env.t
      (sdAcmd41Arg (sdProbe env).1 (sdProbe env).2.1) N 0 fuel (sdProbe env).1
      (fun j hj => by simpa using hclear j hj) rN (by simpa using hitN) hbusy
      (fun j hj => by simpa using ht j hj) hfuel
    refine ⟨if bitsGet rN SD_OCR_HCS 1 == 1 then true else (sdProbe env).1,
      (sdProbe env).2.2 ++ tr, ?_, ?_, ?_⟩
    · simp only [voltageValidationSD]
      rw [htr]
    · rw [countCmd_append, sdProbe_countCmd env 55 (by omega), h55]
      omega
    · rw [countCmd_append, sdProbe_countCmd env 41 (by omega), h41]
      omega
  · intro env fuel K hclear htK hfuel
    obtain ⟨tr, htr, _, _⟩ := sdLoop_deadline env.iter env.t
      (sdAcmd41Arg (sdProbe env).1 (sdProbe env).2.1) K 0 fuel (sdProbe env).1
      (fun j hj => by simpa using hclear j hj) (by simpa using htK) hfuel
    refine ⟨(sdProbe env).2.2 ++ tr, ?_⟩
    simp only [voltageValidationSD]
    rw [htr]
  · intro env fuel N rN hclear hitN hbusy ht hfuel
    obtain ⟨tr, htr, h1⟩ := mmcLoop_success env.iter env.t mmcCmd1Arg N 0 fuel false
      (fun j hj => by simpa using hclear j hj) rN (by simpa using hitN) hbusy
      (fun j hj => by simpa using ht j hj) hfuel
    refine ⟨if bitsGet rN MMC_OCR_ACCESS_MODE 0b11 == ACCESS_MODE_SECTOR then true else false,
      Ev.sleep 1 :: tr, ?_, ?_⟩
    · simp only [voltageValidationMMC]
      rw [htr]
    · simpa [countCmd] using h1
  · intro env fuel K hclear htK hfuel
    obtain ⟨tr, htr, _⟩ := mmcLoop_deadline env.iter env.t mmcCmd1Arg K 0 fuel false
      (fun j hj => by simpa using hclear j hj) (by simpa using htK) hfuel
    refine ⟨Ev.sleep 1 :: tr, ?_⟩
    simp only [voltageValidationMMC]
    rw [htr]

/-- Claim C5, witness: the four clauses at concrete environments (N = 0:
busy already set on the first poll with the clock at 0; and a clock past the
deadline at the first check). -/
theorem claimC5_witness :
    (∃ hc tr, voltageValidationSD
        ⟨none, 0x1aa, none, 0, fun _ => SDIter.rsp (1 <<< 31), fun _ => 0⟩ 1 =
        some ((true, hc), tr) ∧ countCmd 55 tr = 0 + 1 ∧ countCmd 41 tr = 0 + 1)
    ∧ (∃ tr, voltageValidationSD
        ⟨none, 0x1aa, none, 0, fun _ => SDIter.rsp 0, fun _ => 2000000000⟩ 1 =
        some ((false, false), tr))
    ∧ (∃ hc tr, voltageValidationMMC
        ⟨fun _ => MMCIter.rsp (1 <<< 31), fun _ => 0⟩ 1 =
        some ((true, hc), tr) ∧ countCmd 1 tr = 0 + 1)
    ∧ (∃ tr, voltageValidationMMC
        ⟨fun _ => MMCIter.rsp 0, fun _ => 2000000000⟩ 1 =
        some ((false, false), tr)) :=
  ⟨claimC5_theorem.1 _ 1 0 (1 <<< 31)
      (fun j hj => absurd hj (Nat.not_lt_zero j)) rfl (by decide)
      (fun j hj => Nat.zero_le _) (by decide),
    claimC5_theorem.2.1 _ 1 0
      (fun j hj => absurd hj (Nat.not_lt_zero j)) (by decide) (by decide),
    claimC5_theorem.2.2.1 _ 1 0 (1 <<< 31)
      (fun j hj => absurd hj (Nat.not_lt_zero j)) rfl (by decide)
      (fun j hj => Nat.zero_le _) (by decide),
    claimC5_theorem.2.2.2 _ 1 0
      (fun j hj => absurd hj (Nat.not_lt_zero j)) (by decide) (by decide)⟩

/-- Claim C7, counterexample: when the CMD8 probe already concluded
high-capacity (`hc = true`) and the terminating ACMD41 response has the busy
bit set but the HCS bit clear, `voltageValidationSD` still returns
`hc = true` — the response's capacity-status bit does not override the
probe's conclusion. -/
theorem claimC7_counterexample :
    (voltageValidationSD
        ⟨none, 0x1aa, none, 0, fun _ => SDIter.rsp (1 <<< 31), fun _ => 0⟩ 1).map
      Prod.fst = some (true, true)
    ∧ bitsGet (1 <<< 31) SD_OCR_HCS 1 = 0 := by
  refine ⟨by decide, by decide⟩

/-- Claim C7 (amended): once an ACMD41 response with the busy bit set is
observed the loop terminates with success, and the high-capacity result is
the OR of the CMD8-probe conclusion with the capacity-status (HCS) bit of
that response — the HCS bit can upgrade the result to high-capacity but
never clears a high-capacity conclusion already drawn from the probe. -/
theorem claimC7_theorem (env : SDVVEnv) (fuel N rN : Nat)
    (hclear : ∀ j, j < N → ∃ r, env.iter j = SDIter.rsp r ∧ bitsGet r SD_OCR_BUSY 1 = 0)
    (hitN : env.iter N = SDIter.rsp rN) (hbusy : bitsGet rN SD_OCR_BUSY 1 = 1)
    (ht : ∀ j, j ≤ N → env.t j ≤ SD_DETECT_TIMEOUT) (hfuel : N < fuel) :
    ∃ tr, voltageValidationSD env fuel =
      some ((true, (sdProbe env).1 || (bitsGet rN SD_OCR_HCS 1 == 1)), tr) := by
  obtain ⟨tr, htr, _, _⟩ := sdLoop_success env.iter env.t
    (sdAcmd41Arg (sdProbe env).1 (sdProbe env).2.1) N 0 fuel (sdProbe env).1
    (fun j hj => by simpa using hclear j hj) rN (by simpa using hitN) hbusy
    (fun j hj => by simpa using ht j hj) hfuel
  refine ⟨(sdProbe env).2.2 ++ tr, ?_⟩
  have hval : (if (bitsGet rN SD_OCR_HCS 1 == 1) = true then true else (sdProbe env).1) =
      ((sdProbe env).1 || (bitsGet rN SD_OCR_HCS 1 == 1)) := by
    cases h : bitsGet rN SD_OCR_HCS 1 == 1 <;> simp
  rw [hval] at htr
  simp only [voltageValidationSD]
  rw [htr]

/-- Claim C7, witness: the amended theorem at the concrete environment where
the probe concludes high-capacity and the first response is busy-set with a
clear HCS bit. -/
theorem claimC7_witness :
    ∃ tr, voltageValidationSD
        ⟨none, 0x1aa, none, 0, fun _ => SDIter.rsp (1 <<< 31), fun _ => 0⟩ 1 =
      some ((true,
        (sdProbe ⟨none, 0x1aa, none, 0, fun _ => SDIter.rsp (1 <<< 31), fun _ => 0⟩).1 ||
          (bitsGet (1 <<< 31) SD_OCR_HCS 1 == 1)), tr) :=
  claimC7_theorem _ 1 0 (1 <<< 31) (fun j hj => absurd hj (Nat.not_lt_zero j)) rfl
    (by decide) (fun j hj => Nat.zero_le _) (by decide)

/-- Claim C8, counterexample: an in-loop command failure (CMD55 fails on the
first iteration) and a deadline expiry (clock already past 1 s at the first
check) produce the identical `(false, false)` result from
`voltageValidationSD`, and likewise for `voltageValidationMMC` — the caller
cannot distinguish the two cases from the returned value. -/
theorem claimC8_counterexample :
    (voltageValidationSD
        ⟨none, 0x1aa, none, 0, fun _ => SDIter.fail55 7, fun _ => 0⟩ 1).map
      Prod.fst = some (false, false)
    ∧ (voltageValidationSD
        ⟨none, 0x1aa, none, 0, fun _ => SDIter.rsp 0, fun _ => 2000000000⟩ 1).map
      Prod.fst = some (false, false)
    ∧ (voltageValidationMMC ⟨fun _ => MMCIter.fail 7, fun _ => 0⟩ 1).map
      Prod.fst = some (false, false)
    ∧ (voltageValidationMMC ⟨fun _ => MMCIter.rsp 0, fun _ => 2000000000⟩ 1).map
      Prod.fst = some (false, false) := by
  refine ⟨by decide, by decide, by decide, by decide⟩

/-- Claim C8 (amended): in the operating-condition loops of both drivers, a
hardware command failure inside the loop and an expiry of the 1-second
deadline yield the same `(false, false)` result — the caller cannot
distinguish them from the returned value. -/
theorem claimC8_theorem :
    (∀ (env : SDVVEnv) (fuel e : Nat),
      env.t 0 ≤ SD_DETECT_TIMEOUT → env.iter 0 = SDIter.fail55 e →
      (voltageValidationSD env (fuel + 1)).map Prod.fst = some (false, false))
    ∧ (∀ (env : SDVVEnv) (fuel : Nat), SD_DETECT_TIMEOUT < env.t 0 →
      (voltageValidationSD env (fuel + 1)).map Prod.fst = some (false, false))
    ∧ (∀ (env : MMCVVEnv) (fuel e : Nat),
      env.t 0 ≤ MMC_DETECT_TIMEOUT → env.iter 0 = MMCIter.fail e →
      (voltageValidationMMC env (fuel + 1)).map Prod.fst = some (false, false))
    ∧ (∀ (env : MMCVVEnv) (fuel : Nat), MMC_DETECT_TIMEOUT < env.t 0 →
      (voltageValidationMMC env (fuel + 1)).map Prod.fst = some (false, false)) := by
  refine ⟨?_, ?_, ?_, ?_⟩
  · intro env fuel e ht hit
    have h := sdLoop_cmdfail env.iter env.t
      (sdAcmd41Arg (sdProbe env).1 (sdProbe env).2.1) 0 fuel (sdProbe env).1 e ht hit
    simp only [voltageValidationSD]
    rw [h]
    rfl
  · intro env fuel ht
    obtain ⟨tr, htr, _, _⟩ := sdLoop_deadline env.iter env.t
      (sdAcmd41Arg (sdProbe env).1 (sdProbe env).2.1) 0 0 (fuel + 1) (sdProbe env).1
      (fun j hj => absurd hj (Nat.not_lt_zero j)) (by simpa using ht) (by omega)
    simp only [voltageValidationSD]
    rw [htr]
    rfl
  · intro env fuel e ht hit
    have h := mmcLoop_cmdfail env.iter env.t mmcCmd1Arg 0 fuel false e ht hit
    simp only [voltageValidationMMC]
    rw [h]
    rfl
  · intro env fuel ht
    obtain ⟨tr, htr, _⟩ := mmcLoop_deadline env.iter env.t mmcCmd1Arg 0 0 (fuel + 1) false
      (fun j hj => absurd hj (Nat.not_lt_zero j)) (by simpa using ht) (by omega)
    simp only [voltageValidationMMC]
    rw [htr]
    rfl

/-- Claim C8, witness: all four clauses of the amended theorem at concrete
environments. -/
theorem claimC8_witness :
    (voltageValidationSD
        ⟨none, 0x1aa, none, 0, fun _ => SDIter.fail55 9, fun _ => 0⟩ (0 + 1)).map
      Prod.fst = some (false, false)
    ∧ (voltageValidationSD
        ⟨none, 0x1aa, none, 0, fun _ => SDIter.rsp 0, fun _ => 1000000001⟩ (0 + 1)).map
      Prod.fst = some (false, false)
    ∧ (voltageValidationMMC ⟨fun _ => MMCIter.fail 9, fun _ => 0⟩ (0 + 1)).map
      Prod.fst = some (false, false)
    ∧ (voltageValidationMMC ⟨fun _ => MMCIter.rsp 0, fun _ => 1000000001⟩ (0 + 1)).map
      Prod.fst = some (false, false) :=
  ⟨claimC8_theorem.1 _ 0 9 (by decide) rfl,
    claimC8_theorem.2.1 _ 0 (by decide),
    claimC8_theorem.2.2.1 _ 0 9 (by decide) rfl,
    claimC8_theorem.2.2.2 _ 0 (by decide)⟩

/-- For any accepted CSD structure version (≠ 3 under the 2-bit mask),
`detectCapacitySD` succeeds, touching only the geometry fields of the
descriptor. -/
theorem dcsd_success (csd rca : Nat) (card : Card)
    (h : rspVal csd SD_CSD_STRUCTURE 0b11 ≠ 3) :
    ∃ card', detectCapacitySD SD_DEFAULT_BLOCK_SIZE none csd rca card =
      (none, card', [Ev.cmd 9 rca]) ∧ card'.HS = card.HS ∧ card'.DDR = card.DDR := by
  by_cases h0 : rspVal csd SD_CSD_STRUCTURE 0b11 = 0
  · exact ⟨{ card with
        BlockSize := goShlInt 2 (u32sub (rspVal csd SD_CSD_READ_BL_LEN_1 0xf) 1),
        Blocks := goIntOfU32 (u32mul (u32add (rspVal csd SD_CSD_C_SIZE_1 0xfff) 1)
          (u32shl 2 (u32add (rspVal csd SD_CSD_C_SIZE_MULT_1 0b111) 2))) },
      by simp [detectCapacitySD, h0], rfl, rfl⟩
  · by_cases h1 : rspVal csd SD_CSD_STRUCTURE 0b11 = 1
    · exact ⟨{ card with
          BlockSize := goShlInt 2 (u32sub (rspVal csd SD_CSD_READ_BL_LEN_2 0xf) 1),
          Blocks := goIntMul (goIntOfU32 (u32add (rspVal csd SD_CSD_C_SIZE_2 0x3fffff) 1)) 1024 },
        by simp [detectCapacitySD, h1, h0], rfl, rfl⟩
    · have h2 : rspVal csd SD_CSD_STRUCTURE 0b11 = 2 := by
        have := rspVal_le csd SD_CSD_STRUCTURE 0b11
        omega
      exact ⟨{ card with
          BlockSize := goShlInt 2 (u32sub (rspVal csd SD_CSD_READ_BL_LEN_2 0xf) 1),
          Blocks := goIntMul (goIntOfU32 (u32add (rspVal csd SD_CSD_C_SIZE_2 0xfffffff) 1)) 1024 },
        by simp [detectCapacitySD, h2, h1, h0], rfl, rfl⟩

/-- For the rejected CSD structure version 3, `detectCapacitySD` fails with a
protocol error and leaves the descriptor untouched. -/
theorem dcsd_badver (csd rca : Nat) (card : Card)
    (h : rspVal csd SD_CSD_STRUCTURE 0b11 = 3) :
    detectCapacitySD SD_DEFAULT_BLOCK_SIZE none csd rca card =
      (some (GoErr.protocol ("unsupported CSD version " ++ toString (3 : Nat))),
        card, [Ev.cmd 9 rca]) := by
  simp [detectCapacitySD, h]

/-- `initSD` reaches (and issues) the CMD6 high-speed switch exactly when
every earlier step succeeds: CMD2/CMD3, Identification state, CMD9 and an
accepted CSD version, CMD7, the 1 ms Transfer wait, CMD55 with the
app-command status bit, a supported bus width, and ACMD6. -/
def sdReachesCmd6 (env : SDEnv) (width : Nat) : Bool :=
  env.cmd2.isNone && env.cmd3.isNone &&
    decide ((env.rsp3 >>> STATUS_CURRENT_STATE) &&& 0b1111 = CURRENT_STATE_IDENT) &&
    env.cmd9.isNone && decide (rspVal env.csd SD_CSD_STRUCTURE 0b11 ≠ 3) &&
    env.cmd7.isNone && env.wait1 && env.cmd55.isNone &&
    decide ((env.rsp55 >>> STATUS_APP_CMD) &&& 1 = 1) &&
    (decide (width = 1) || decide (width = 4)) && env.acmd6.isNone

/-- Claim C3: starting from a descriptor with the flag clear, `initSD` ends
with `high_speed = true` exactly when the run reaches the CMD6 mode switch
and that command itself succeeds; and when the subsequent bounded 500 ms
wait for Transfer fails, its timeout error is returned to the caller while
the flag is still set and the clock has still been reprogrammed to the
high-speed divisor. -/
theorem claimC3_theorem (env : SDEnv) (width : Nat) (st : HwState)
    (h : st.card.HS = false) :
    ((initSD env width st).st.card.HS = true ↔
      sdReachesCmd6 env width = true ∧ env.cmd6 = none)
    ∧ (sdReachesCmd6 env width = true → env.cmd6 = none → env.wait500 = false →
      (initSD env width st).err = some GoErr.stateTimeout ∧
      (initSD env width st).st.card.HS = true ∧
      Ev.clock DVS_HS SDCLKFS_HS_SDR ∈ (initSD env width st).trace) := by
  obtain ⟨c2, c3, r3, c9, csd, c7, w1, c55, r55, a6, c6, w500⟩ := env
  rcases c2 with _ | e2
  · rcases c3 with _ | e3
    · by_cases hst : (r3 >>> STATUS_CURRENT_STATE) &&& 0b1111 = CURRENT_STATE_IDENT
      · rcases c9 with _ | e9
        · by_cases hver : rspVal csd SD_CSD_STRUCTURE 0b11 = 3
          · simp [initSD, sdReachesCmd6, hst, hver, dcsd_badver csd _ st.card hver, h]
          · obtain ⟨card', hdc, hhs, _⟩ :=
              dcsd_success csd (r3 &&& (0xffff <<< RCA_ADDR)) st.card hver
            rcases c7 with _ | e7
            · cases w1
              · simp [initSD, sdReachesCmd6, hst, hver, hdc, hhs, h]
              · rcases c55 with _ | e55
                · by_cases happ : (r55 >>> STATUS_APP_CMD) &&& 1 = 1
                  · by_cases hw : width = 1 ∨ width = 4
                    · rcases a6 with _ | e6a
                      · rcases c6 with _ | e6
                        · constructor
                          · rcases hw with hw | hw <;>
                              simp [initSD, sdReachesCmd6, hst, hver, hdc, hw, happ]
                          · intro _ _ hw500
                            subst hw500
                            rcases hw with hw | hw <;>
                              simp [initSD, sdReachesCmd6, hst, hver, hdc, hw, happ]
                        · rcases hw with hw | hw <;>
                            simp [initSD, sdReachesCmd6, hst, hver, hdc, hhs, hw, happ, h]
                      · rcases hw with hw | hw <;>
                          simp [initSD, sdReachesCmd6, hst, hver, hdc, hhs, hw, happ, h]
                    · have hw1 : width ≠ 1 := fun hq => hw (Or.inl hq)
                      have hw4 : width ≠ 4 := fun hq => hw (Or.inr hq)
                      simp [initSD, sdReachesCmd6, hst, hver, hdc, hhs, hw, hw1, hw4, happ, h]
                  · have happ2 : r55 >>> STATUS_APP_CMD % 2 = 0 := by
                      have hand := Nat.and_one_is_mod (r55 >>> STATUS_APP_CMD)
                      omega
                    simp [initSD, sdReachesCmd6, hst, hver, hdc, hhs, happ, happ2, h]
                · simp [initSD, sdReachesCmd6, hst, hver, hdc, hhs, h]
            · simp [initSD, sdReachesCmd6, hst, hver, hdc, hhs, h]
        · simp [initSD, sdReachesCmd6, detectCapacitySD, hst, h]
      · simp [initSD, sdReachesCmd6, hst, h]
    · simp [initSD, sdReachesCmd6, h]
  · simp [initSD, sdReachesCmd6, h]

/-- Claim C3, witness: a concrete run in which every step up to the CMD6
switch succeeds and the subsequent 500 ms wait fails — the timeout error is
returned while the flag is set and the high-speed clock event appears. -/
theorem claimC3_witness :
    (initSD ⟨none, none, 2 <<< 9, none, 9 <<< 72, none, true, none, 1 <<< 5,
        none, none, false⟩ 4 ⟨Card.zero, 0⟩).err = some GoErr.stateTimeout ∧
    (initSD ⟨none, none, 2 <<< 9, none, 9 <<< 72, none, true, none, 1 <<< 5,
        none, none, false⟩ 4 ⟨Card.zero, 0⟩).st.card.HS = true ∧
    Ev.clock DVS_HS SDCLKFS_HS_SDR ∈
      (initSD ⟨none, none, 2 <<< 9, none, 9 <<< 72, none, true, none, 1 <<< 5,
        none, none, false⟩ 4 ⟨Card.zero, 0⟩).trace :=
  (claimC3_theorem _ 4 ⟨Card.zero, 0⟩ rfl).2 (by decide) rfl rfl

/-- The per-register list of values written through the `writeCardRegisterMMC`
CMD6 encoding, in trace order: for each CMD6 command whose
`MMC_SWITCH_INDEX` field equals `reg`, its `MMC_SWITCH_VALUE` field. -/
def switchWriteVals (reg : Nat) : List Ev → List Nat
  | [] => []
  | e :: tr =>
    match e with
    | Ev.cmd i a =>
      if i = 6 ∧ bitsGet a MMC_SWITCH_INDEX 0xff = reg
        then bitsGet a MMC_SWITCH_VALUE 0xff :: switchWriteVals reg tr
        else switchWriteVals reg tr
    | _ => switchWriteVals reg tr

theorem switchWriteVals_append (reg : Nat) (a b : List Ev) :
    switchWriteVals reg (a ++ b) = switchWriteVals reg a ++ switchWriteVals reg b := by
  induction a with
  | nil => simp [switchWriteVals]
  | cons e tl ih =>
    cases e with
    | cmd i arg =>
      simp only [List.cons_append, switchWriteVals]
      split_ifs <;> simp [ih]
    | clock d f => simp [switchWriteVals, ih]
    | wait d f => simp [switchWriteVals, ih]
    | xfer d f g => simp [switchWriteVals, ih]
    | sleep d => simp [switchWriteVals, ih]

/-- `initSD` reaches the bus-width switch exactly when every earlier step
succeeds (through the CMD55 app-command gate). -/
def sdReachesWidth (env : SDEnv) : Bool :=
  env.cmd2.isNone && env.cmd3.isNone &&
    decide ((env.rsp3 >>> STATUS_CURRENT_STATE) &&& 0b1111 = CURRENT_STATE_IDENT) &&
    env.cmd9.isNone && decide (rspVal env.csd SD_CSD_STRUCTURE 0b11 ≠ 3) &&
    env.cmd7.isNone && env.wait1 && env.cmd55.isNone &&
    decide ((env.rsp55 >>> STATUS_APP_CMD) &&& 1 = 1)

/-- `initMMC` reaches the bus-width switch exactly when every earlier step
succeeds (through the 1 ms Transfer wait). -/
def mmcReachesWidth (env : MMCEnv) : Bool :=
  env.cmd2.isNone && env.cmd3.isNone &&
    decide ((env.rsp3 >>> STATUS_CURRENT_STATE) &&& 0b1111 = CURRENT_STATE_IDENT) &&
    env.cmd9.isNone && decide (rspVal env.csd MMC_CSD_TRAN_SPEED 0xff = TRAN_SPEED_26MHZ) &&
    env.cmd7.isNone && env.wait1

/-- `initMMC` completes the capacity decode exactly when it reaches the
bus-width switch with a supported width, the first bus-width write succeeds,
and (on the emulation path) the Extended-CSD transfer succeeds. -/
def mmcReachesCapacity (env : MMCEnv) (width : Nat) : Bool :=
  mmcReachesWidth env && (decide (width = 4) || decide (width = 8)) &&
    env.bw1cmd.isNone && env.bw1wait &&
    (decide (rspVal env.csd MMC_CSD_C_SIZE 0xfff ≤ 0xff) || env.xfer8.isNone)

/-- `initMMC` reaches the DDR-stage second bus-width write exactly when the
capacity decode completed, the specification version is at least 4, and the
HS-timing write succeeded. -/
def mmcReachesDDRBW (env : MMCEnv) (width : Nat) : Bool :=
  mmcReachesCapacity env width &&
    decide (4 ≤ rspVal env.csd MMC_CSD_SPEC_VERS 0xf) &&
    env.hsCmd.isNone && env.hsWait

/-- Tuple form of the legacy `detectCapacityMMC` run (the transfer outcome is
never consulted on this path). -/
theorem dcmmc_eq_legacy (bs m c rbl : Nat) (xfer : Option Nat) (buf : Nat → Nat) (card : Card)
    (hgt : ¬ c > 0xff) :
    detectCapacityMMC bs m c rbl xfer buf card =
      (none, { card with
        BlockSize := goShlInt 2 (u32sub rbl 1)
        Blocks := goIntOfU32 (u32mul (u32add c 1) (u32shl 2 (u32add m 2))) }, []) := by
  simp [detectCapacityMMC, hgt]

/-- Tuple form of the successful emulation `detectCapacityMMC` run. -/
theorem dcmmc_eq_emul (bs m c rbl : Nat) (buf : Nat → Nat) (card : Card)
    (hgt : c > 0xff) :
    detectCapacityMMC bs m c rbl none buf card =
      (none, { card with
        BlockSize := (bs : Int)
        Blocks := goIntOfU32 (u32 (le32 buf EXT_CSD_SEC_COUNT)) },
        [Ev.xfer 8 1 (u32 bs)]) := by
  simp [detectCapacityMMC, hgt]

/-- Tuple form of the emulation `detectCapacityMMC` run whose transfer fails:
the block size has already been set when the error is returned. -/
theorem dcmmc_eq_xferfail (bs m c rbl e : Nat) (buf : Nat → Nat) (card : Card)
    (hgt : c > 0xff) :
    detectCapacityMMC bs m c rbl (some e) buf card =
      (some (GoErr.hw e), { card with BlockSize := (bs : Int) },
        [Ev.xfer 8 1 (u32 bs)]) := by
  simp [detectCapacityMMC, hgt]

/-- Index and value bit-fields of the concrete CMD6 switch arguments used by
the driver (bus-width codes 1, 2, 5, 6 and the HS-timing code). -/
theorem swIdxBW1 : bitsGet (mmcSwitchArg EXT_CSD_BUS_WIDTH 1) MMC_SWITCH_INDEX 0xff =
    EXT_CSD_BUS_WIDTH := by decide
theorem swIdxBW2 : bitsGet (mmcSwitchArg EXT_CSD_BUS_WIDTH 2) MMC_SWITCH_INDEX 0xff =
    EXT_CSD_BUS_WIDTH := by decide
theorem swIdxBW5 : bitsGet (mmcSwitchArg EXT_CSD_BUS_WIDTH 5) MMC_SWITCH_INDEX 0xff =
    EXT_CSD_BUS_WIDTH := by decide
theorem swIdxBW6 : bitsGet (mmcSwitchArg EXT_CSD_BUS_WIDTH 6) MMC_SWITCH_INDEX 0xff =
    EXT_CSD_BUS_WIDTH := by decide
theorem swIdxHS : bitsGet (mmcSwitchArg EXT_CSD_HS_TIMING HS_TIMING_HS) MMC_SWITCH_INDEX 0xff =
    EXT_CSD_HS_TIMING := by decide
theorem swValBW1 : bitsGet (mmcSwitchArg EXT_CSD_BUS_WIDTH 1) MMC_SWITCH_VALUE 0xff = 1 := by
  decide
theorem swValBW2 : bitsGet (mmcSwitchArg EXT_CSD_BUS_WIDTH 2) MMC_SWITCH_VALUE 0xff = 2 := by
  decide
theorem swValBW5 : bitsGet (mmcSwitchArg EXT_CSD_BUS_WIDTH 5) MMC_SWITCH_VALUE 0xff = 5 := by
  decide
theorem swValBW6 : bitsGet (mmcSwitchArg EXT_CSD_BUS_WIDTH 6) MMC_SWITCH_VALUE 0xff = 6 := by
  decide

/-- Claim C6, counterexample: with an unsupported SD bus width of 2 and every
earlier step succeeding, `initSD` does return the unsupported-width error,
but the descriptor is not left untouched: the capacity decode that runs
before the width check has already set the block size to 512 (from its
initial 0). -/
theorem claimC6_counterexample :
    (initSD ⟨none, none, 2 <<< 9, none, 9 <<< 72, none, true, none, 1 <<< 5,
        none, none, true⟩ 2 ⟨Card.zero, 0⟩).err =
      some (GoErr.protocol "unsupported SD bus width")
    ∧ (initSD ⟨none, none, 2 <<< 9, none, 9 <<< 72, none, true, none, 1 <<< 5,
        none, none, true⟩ 2 ⟨Card.zero, 0⟩).st.card.BlockSize = 512
    ∧ Card.zero.BlockSize = 0 := by
  refine ⟨by decide, by decide, by decide⟩

/-- Claim C6 (amended): the bus-width mapping is pure and total on its
domain — `initSD` maps width 1 to wire code 0b00 and 4 to 0b10, `initMMC`
maps width 4 to register code 1 and 8 to 2, and any other width yields the
unsupported-width error. On the failing call the eMMC descriptor is left
untouched, while the SD descriptor keeps its speed flags untouched but has
already had its capacity fields populated by the preceding CMD9 decode. -/
theorem claimC6_theorem :
    (∀ (env : SDEnv) (width : Nat) (st : HwState),
      sdReachesWidth env = true → width ≠ 1 → width ≠ 4 →
      (initSD env width st).err = some (GoErr.protocol "unsupported SD bus width") ∧
      (initSD env width st).st.card.HS = st.card.HS ∧
      (initSD env width st).st.card.DDR = st.card.DDR)
    ∧ (∀ (env : SDEnv) (width : Nat) (st : HwState),
      sdReachesWidth env = true → width = 1 ∨ width = 4 →
      Ev.cmd 6 (if width = 1 then 0b00 else 0b10) ∈ (initSD env width st).trace)
    ∧ (∀ (env : MMCEnv) (n width : Nat) (st : HwState),
      mmcReachesWidth env = true → width ≠ 4 → width ≠ 8 →
      (initMMC env n width st).err = some (GoErr.protocol "unsupported MMC bus width") ∧
      (initMMC env n width st).st.card = st.card)
    ∧ (∀ (env : MMCEnv) (n width : Nat) (st : HwState),
      mmcReachesWidth env = true → width = 4 ∨ width = 8 →
      (switchWriteVals EXT_CSD_BUS_WIDTH (initMMC env n width st).trace).head? =
        some (if width = 4 then 1 else 2)) := by
  refine ⟨?_, ?_, ?_, ?_⟩
  · intro env width st hreach hw1 hw4
    obtain ⟨c2, c3, r3, c9, csd, c7, w1, c55, r55, a6, c6, w500⟩ := env
    simp only [sdReachesWidth, Bool.and_eq_true, decide_eq_true_eq,
      Option.isNone_iff_eq_none] at hreach
    obtain ⟨⟨⟨⟨⟨⟨⟨⟨hc2, hc3⟩, hst⟩, hc9⟩, hver⟩, hc7⟩, hw1'⟩, hc55⟩, happ⟩ := hreach
    subst hc2 hc3 hc9 hc7 hc55 hw1'
    obtain ⟨card', hdc, hhs, hddr⟩ :=
      dcsd_success csd (r3 &&& (0xffff <<< RCA_ADDR)) st.card hver
    simp [initSD, hst, hdc, hhs, hddr, happ, hw1, hw4]
  · intro env width st hreach hw
    obtain ⟨c2, c3, r3, c9, csd, c7, w1, c55, r55, a6, c6, w500⟩ := env
    simp only [sdReachesWidth, Bool.and_eq_true, decide_eq_true_eq,
      Option.isNone_iff_eq_none] at hreach
    obtain ⟨⟨⟨⟨⟨⟨⟨⟨hc2, hc3⟩, hst⟩, hc9⟩, hver⟩, hc7⟩, hw1'⟩, hc55⟩, happ⟩ := hreach
    subst hc2 hc3 hc9 hc7 hc55 hw1'
    obtain ⟨card', hdc, hhs, hddr⟩ :=
      dcsd_success csd (r3 &&& (0xffff <<< RCA_ADDR)) st.card hver
    rcases hw with rfl | rfl <;>
      rcases a6 with _ | e6a <;> rcases c6 with _ | e6 <;>
        simp [initSD, hst, hdc, happ]
  · intro env n width st hreach hw4 hw8
    obtain ⟨c2, c3, r3, c9, csd, c7, w1, bw1c, bw1w, xf, buf, hsc, hsw, bw2c, bw2w⟩ := env
    simp only [mmcReachesWidth, Bool.and_eq_true, decide_eq_true_eq,
      Option.isNone_iff_eq_none] at hreach
    obtain ⟨⟨⟨⟨⟨⟨hc2, hc3⟩, hst⟩, hc9⟩, hmhz⟩, hc7⟩, hw1'⟩ := hreach
    subst hc2 hc3 hc9 hc7 hw1'
    simp [initMMC, hst, hmhz, hw4, hw8]
  · intro env n width st hreach hw
    obtain ⟨c2, c3, r3, c9, csd, c7, w1, bw1c, bw1w, xf, buf, hsc, hsw, bw2c, bw2w⟩ := env
    simp only [mmcReachesWidth, Bool.and_eq_true, decide_eq_true_eq,
      Option.isNone_iff_eq_none] at hreach
    obtain ⟨⟨⟨⟨⟨⟨hc2, hc3⟩, hst⟩, hc9⟩, hmhz⟩, hc7⟩, hw1'⟩ := hreach
    subst hc2 hc3 hc9 hc7 hw1'
    by_cases hgt : rspVal csd MMC_CSD_C_SIZE 0xfff > 0xff
    · rcases hw with rfl | rfl <;> rcases bw1c with _ | e1 <;>
        [skip; skip; skip; skip] <;> first
      | (rcases bw1w with _ | _ <;> rcases xf with _ | ex <;>
          by_cases hver4 : rspVal csd MMC_CSD_SPEC_VERS 0xf < 4 <;>
            simp [initMMC, hst, hmhz, hgt, hver4, dcmmc_eq_emul, dcmmc_eq_xferfail,
              writeCardRegisterMMC, switchWriteVals, switchWriteVals_append,
              swIdxBW1, swIdxBW2, swValBW1, swValBW2])
      | simp [initMMC, hst, hmhz, hgt, writeCardRegisterMMC, switchWriteVals,
          swIdxBW1, swIdxBW2, swValBW1, swValBW2]
    · rcases hw with rfl | rfl <;> rcases bw1c with _ | e1 <;>
        [skip; skip; skip; skip] <;> first
      | (rcases bw1w with _ | _ <;>
          by_cases hver4 : rspVal csd MMC_CSD_SPEC_VERS 0xf < 4 <;>
            simp [initMMC, hst, hmhz, hgt, hver4, dcmmc_eq_legacy,
              writeCardRegisterMMC, switchWriteVals, switchWriteVals_append,
              swIdxBW1, swIdxBW2, swValBW1, swValBW2])
      | simp [initMMC, hst, hmhz, hgt, writeCardRegisterMMC, switchWriteVals,
          swIdxBW1, swIdxBW2, swValBW1, swValBW2]

/-- Claim C6, witness: the four clauses of the amended theorem at concrete
environments (SD widths 2 and 1, eMMC widths 3 and 8). -/
theorem claimC6_witness :
    ((initSD ⟨none, none, 2 <<< 9, none, 9 <<< 72, none, true, none, 1 <<< 5,
        none, none, true⟩ 2 ⟨Card.zero, 0⟩).err =
      some (GoErr.protocol "unsupported SD bus width") ∧
      (initSD ⟨none, none, 2 <<< 9, none, 9 <<< 72, none, true, none, 1 <<< 5,
        none, none, true⟩ 2 ⟨Card.zero, 0⟩).st.card.HS = (Card.zero).HS ∧
      (initSD ⟨none, none, 2 <<< 9, none, 9 <<< 72, none, true, none, 1 <<< 5,
        none, none, true⟩ 2 ⟨Card.zero, 0⟩).st.card.DDR = (Card.zero).DDR)
    ∧ Ev.cmd 6 (if 1 = 1 then 0b00 else 0b10) ∈
      (initSD ⟨none, none, 2 <<< 9, none, 9 <<< 72, none, true, none, 1 <<< 5,
        none, none, true⟩ 1 ⟨Card.zero, 0⟩).trace
    ∧ ((initMMC ⟨none, none, 2 <<< 9, none, 0x32 <<< 88, none, true, none, true,
        none, fun _ => 0, none, true, none, true⟩ 0 3 ⟨Card.zero, 0⟩).err =
      some (GoErr.protocol "unsupported MMC bus width") ∧
      (initMMC ⟨none, none, 2 <<< 9, none, 0x32 <<< 88, none, true, none, true,
        none, fun _ => 0, none, true, none, true⟩ 0 3 ⟨Card.zero, 0⟩).st.card = Card.zero)
    ∧ (switchWriteVals EXT_CSD_BUS_WIDTH
        (initMMC ⟨none, none, 2 <<< 9, none, 0x32 <<< 88, none, true, none, true,
          none, fun _ => 0, none, true, none, true⟩ 0 8 ⟨Card.zero, 0⟩).trace).head? =
      some (if 8 = 4 then 1 else 2) :=
  ⟨claimC6_theorem.1 _ 2 ⟨Card.zero, 0⟩ (by decide) (by decide) (by decide),
    claimC6_theorem.2.1 _ 1 ⟨Card.zero, 0⟩ (by decide) (Or.inl rfl),
    claimC6_theorem.2.2.1 _ 0 3 ⟨Card.zero, 0⟩ (by decide) (by decide) (by decide),
    claimC6_theorem.2.2.2 _ 0 8 ⟨Card.zero, 0⟩ (by decide) (Or.inr rfl)⟩

/-- Claim C4: when the CSD specification-version nibble is below 4 and the
run completes the capacity decode, `initMMC` returns success immediately,
the descriptor reports `ddr = false` and `high_speed = false` (from a
descriptor with the flags clear), no HS-timing Extended-CSD write is issued,
and exactly one bus-width write (the SDR code for the configured width) is
issued. -/
theorem claimC4_theorem (env : MMCEnv) (n width : Nat) (st : HwState)
    (hHS : st.card.HS = false) (hDDR : st.card.DDR = false)
    (hver : rspVal env.csd MMC_CSD_SPEC_VERS 0xf < 4)
    (hreach : mmcReachesCapacity env width = true) :
    (initMMC env n width st).err = none ∧
    (initMMC env n width st).st.card.HS = false ∧
    (initMMC env n width st).st.card.DDR = false ∧
    switchWriteVals EXT_CSD_HS_TIMING (initMMC env n width st).trace = [] ∧
    switchWriteVals EXT_CSD_BUS_WIDTH (initMMC env n width st).trace =
      [if width = 4 then 1 else 2] := by
  obtain ⟨c2, c3, r3, c9, csd, c7, w1, bw1c, bw1w, xf, buf, hsc, hsw, bw2c, bw2w⟩ := env
  simp only [mmcReachesCapacity, mmcReachesWidth, Bool.and_eq_true, Bool.or_eq_true,
    decide_eq_true_eq, Option.isNone_iff_eq_none] at hreach
  obtain ⟨⟨⟨⟨⟨⟨⟨⟨⟨⟨hc2, hc3⟩, hst⟩, hc9⟩, hmhz⟩, hc7⟩, hw1'⟩, hwor⟩, hbw1c⟩, hbw1w⟩, hcap⟩ :=
    hreach
  subst hc2 hc3 hc9 hc7 hw1' hbw1c hbw1w
  simp only at hver
  by_cases hgt : rspVal csd MMC_CSD_C_SIZE 0xfff > 0xff
  · have hxf : xf = none := by
      rcases hcap with hle | hxf
      · omega
      · exact hxf
    subst hxf
    rcases hwor with rfl | rfl <;>
      simp [initMMC, hst, hmhz, hgt, hver, hHS, hDDR, dcmmc_eq_emul,
        writeCardRegisterMMC, switchWriteVals, swIdxBW1, swIdxBW2, swValBW1, swValBW2,
        EXT_CSD_BUS_WIDTH, EXT_CSD_HS_TIMING] <;> decide
  · rcases hwor with rfl | rfl <;>
      simp [initMMC, hst, hmhz, hgt, hver, hHS, hDDR, dcmmc_eq_legacy,
        writeCardRegisterMMC, switchWriteVals, swIdxBW1, swIdxBW2, swValBW1, swValBW2,
        EXT_CSD_BUS_WIDTH, EXT_CSD_HS_TIMING] <;> decide

/-- Claim C4, witness: a concrete version-3 eMMC run (legacy capacity,
width 4) — success, flags clear, no HS-timing write, one bus-width write. -/
theorem claimC4_witness :
    (initMMC ⟨none, none, 2 <<< 9, none, (3 <<< 114) ||| (0x32 <<< 88), none, true,
        none, true, none, fun _ => 0, none, true, none, true⟩ 0 4 ⟨Card.zero, 0⟩).err = none ∧
    (initMMC ⟨none, none, 2 <<< 9, none, (3 <<< 114) ||| (0x32 <<< 88), none, true,
        none, true, none, fun _ => 0, none, true, none, true⟩ 0 4
      ⟨Card.zero, 0⟩).st.card.HS = false ∧
    (initMMC ⟨none, none, 2 <<< 9, none, (3 <<< 114) ||| (0x32 <<< 88), none, true,
        none, true, none, fun _ => 0, none, true, none, true⟩ 0 4
      ⟨Card.zero, 0⟩).st.card.DDR = false ∧
    switchWriteVals EXT_CSD_HS_TIMING
      (initMMC ⟨none, none, 2 <<< 9, none, (3 <<< 114) ||| (0x32 <<< 88), none, true,
        none, true, none, fun _ => 0, none, true, none, true⟩ 0 4
      ⟨Card.zero, 0⟩).trace = [] ∧
    switchWriteVals EXT_CSD_BUS_WIDTH
      (initMMC ⟨none, none, 2 <<< 9, none, (3 <<< 114) ||| (0x32 <<< 88), none, true,
        none, true, none, fun _ => 0, none, true, none, true⟩ 0 4
      ⟨Card.zero, 0⟩).trace = [if 4 = 4 then 1 else 2] :=
  claimC4_theorem _ 0 4 ⟨Card.zero, 0⟩ rfl rfl (by decide) (by decide)

/-- Claim C10: whenever `initMMC` reaches the DDR-stage bus-width re-write,
the configured width is necessarily 4 or 8, so the defaultless second switch
always overwrites `bus_width` with the DDR register code — the bus-width
write values over the whole run are exactly the SDR code followed by the
DDR code for the configured width (5 for width 4, 6 for width 8), never a
stale SDR code. -/
theorem claimC10_theorem (env : MMCEnv) (n width : Nat) (st : HwState)
    (hreach : mmcReachesDDRBW env width = true) :
    (width = 4 ∨ width = 8) ∧
    switchWriteVals EXT_CSD_BUS_WIDTH (initMMC env n width st).trace =
      [if width = 4 then 1 else 2, if width = 4 then 5 else 6] := by
  obtain ⟨c2, c3, r3, c9, csd, c7, w1, bw1c, bw1w, xf, buf, hsc, hsw, bw2c, bw2w⟩ := env
  simp only [mmcReachesDDRBW, mmcReachesCapacity, mmcReachesWidth, Bool.and_eq_true,
    Bool.or_eq_true, decide_eq_true_eq, Option.isNone_iff_eq_none] at hreach
  obtain ⟨⟨⟨⟨⟨⟨⟨⟨⟨⟨⟨⟨⟨hc2, hc3⟩, hst⟩, hc9⟩, hmhz⟩, hc7⟩, hw1'⟩, hwor⟩, hbw1c⟩, hbw1w⟩,
    hcap⟩, hver4⟩, hhsc⟩, hhsw⟩ := hreach
  subst hc2 hc3 hc9 hc7 hw1' hbw1c hbw1w hhsc hhsw
  have hnver : ¬ rspVal csd MMC_CSD_SPEC_VERS 0xf < 4 := by omega
  refine ⟨hwor, ?_⟩
  by_cases hgt : rspVal csd MMC_CSD_C_SIZE 0xfff > 0xff
  · have hxf : xf = none := by
      rcases hcap with hle | hxf
      · omega
      · exact hxf
    subst hxf
    rcases hwor with rfl | rfl <;> rcases bw2c with _ | e2 <;>
      rcases bw2w with _ | _ <;>
        simp [initMMC, initMMCddr, hst, hmhz, hgt, hnver, dcmmc_eq_emul,
          writeCardRegisterMMC, switchWriteVals, switchWriteVals_append,
          swIdxBW1, swIdxBW2, swIdxBW5, swIdxBW6, swIdxHS,
          swValBW1, swValBW2, swValBW5, swValBW6, EXT_CSD_BUS_WIDTH,
          EXT_CSD_HS_TIMING] <;> decide
  · rcases hwor with rfl | rfl <;> rcases bw2c with _ | e2 <;>
      rcases bw2w with _ | _ <;>
        simp [initMMC, initMMCddr, hst, hmhz, hgt, hnver, dcmmc_eq_legacy,
          writeCardRegisterMMC, switchWriteVals, switchWriteVals_append,
          swIdxBW1, swIdxBW2, swIdxBW5, swIdxBW6, swIdxHS,
          swValBW1, swValBW2, swValBW5, swValBW6, EXT_CSD_BUS_WIDTH,
          EXT_CSD_HS_TIMING] <;> decide

/-- Claim C10, witness: a concrete version-4 eMMC run at width 8 — the
bus-width writes are exactly the SDR code 2 followed by the DDR code 6. -/
theorem claimC10_witness :
    (8 = 4 ∨ 8 = 8) ∧
    switchWriteVals EXT_CSD_BUS_WIDTH
      (initMMC ⟨none, none, 2 <<< 9, none, (4 <<< 114) ||| (0x32 <<< 88), none, true,
        none, true, none, fun _ => 0, none, true, none, true⟩ 0 8
      ⟨Card.zero, 0⟩).trace = [if 8 = 4 then 1 else 2, if 8 = 4 then 5 else 6] :=
  claimC10_theorem _ 0 8 ⟨Card.zero, 0⟩ (by decide)
